import Mathlib

/-!
Verification development for the notification dispatch, message-edit state
tracking, Telegraph fallback and translation-quality logic of an AI release
tracker (source files: core/notify/telegram.py, core/notify/telegraph.py,
core/translate/llm.py, products/claude_code/checker.py).

Python strings are modelled as `String`/`List Char` (Python `len` counts code
points, which coincides with `List Char` length).  Every regular-expression
operation of the source is specialised to its concrete pattern and implemented
as an executable scanner; recursion is structural (on an explicit fuel bound
where the natural recursion is not structural) so that every definition
evaluates inside the kernel.  Python's `\s`, `\d`, `\w` and `str.strip` are
modelled over their ASCII ranges (the texts this program handles are markdown
changelogs; the CJK characters appearing in them are neither whitespace,
digits nor word-constituent for any of the branches taken).

Network effects (Telegram sendMessage/editMessageText, Telegraph createPage,
LLM completion) are modelled by an oracle environment `Env`: each outbound
call appends an `Event` to a trace and takes its result from the oracle,
indexed by the number of calls of that kind made so far.  File persistence of
the checker is an explicit record `FS`.  The MD5 hex digest of `hashlib`
(an external library) is a function field of the environment.
-/

namespace RelTracker

/-- Python `\s` over ASCII: space, tab, newline, carriage return, vertical
tab, form feed. -/
def pyIsSpaceB (c : Char) : Bool :=
  c == ' ' || c == '\t' || c == '\n' || c == '\x0d' || c == '\x0b' || c == '\x0c'

/-- Python `\d` (ASCII range). -/
def pyIsDigitB (c : Char) : Bool :=
  '0' ≤ c && c ≤ '9'

/-- Python `\w` (ASCII range): letters, digits, underscore. -/
def pyIsWordB (c : Char) : Bool :=
  ('a' ≤ c && c ≤ 'z') || ('A' ≤ c && c ≤ 'Z') || pyIsDigitB c || c == '_'

/-- Drop leading characters satisfying `p`. -/
def dropWhileB (p : Char → Bool) : List Char → List Char
  | [] => []
  | c :: cs => if p c then dropWhileB p cs else c :: cs

/-- Python `str.strip()` on a character list (ASCII whitespace model):
drop trailing whitespace, then leading whitespace. -/
def pyStripL (cs : List Char) : List Char :=
  dropWhileB pyIsSpaceB ((dropWhileB pyIsSpaceB cs.reverse).reverse)

/-- Python `str.strip()`. -/
def pyStrip (s : String) : String :=
  ⟨pyStripL s.data⟩

/-- Python `str.rstrip()`. -/
def pyStripRight (cs : List Char) : List Char :=
  (dropWhileB pyIsSpaceB cs.reverse).reverse

/-- Does `pat` occur at the head of `cs`? -/
def leadsWith : List Char → List Char → Bool
  | [], _ => true
  | _ :: _, [] => false
  | p :: ps, c :: cs => p == c && leadsWith ps cs

/-- Python `pat in s` (substring test) for a nonempty or empty pattern. -/
def containsSub (pat : List Char) : List Char → Bool
  | [] => leadsWith pat []
  | c :: cs => leadsWith pat (c :: cs) || containsSub pat cs

/-- Split a character list at newline characters (Python `str.split('\n')`). -/
def splitLinesL : List Char → List (List Char)
  | [] => [[]]
  | c :: cs =>
    let rest := splitLinesL cs
    if c == '\n' then [] :: rest
    else match rest with
      | [] => [[c]]
      | l :: ls => (c :: l) :: ls

/-- Join lines with newline characters (Python `'\n'.join`). -/
def joinLinesL : List (List Char) → List Char
  | [] => []
  | [l] => l
  | l :: l' :: ls => l ++ '\n' :: joinLinesL (l' :: ls)

/-! ## core/notify/telegram.py : escape_markdown -/

/-- The character class of `escape_markdown`:
`_` `` ` `` `[` `]` `(` `)` `~` `>` `#` `+` `=` `|` `{` `}` `.` `!` `-`
(`*` is deliberately not escaped by the source, to keep bold markers). -/
def escapeChars : List Char :=
  ['_', '`', '[', ']', '(', ')', '~', '>', '#', '+', '=', '|', '\x7b', '\x7d', '.', '!', '-']

/-- One character of `escape_markdown`: prefix a backslash when special. -/
def escapeCharL (c : Char) : List Char :=
  if c ∈ escapeChars then ['\\', c] else [c]

/-- `escape_markdown` on a character list (`re.sub` of the character class by
a backslash-prefixed copy acts independently on every character). -/
def escapeMarkdownL : List Char → List Char
  | [] => []
  | c :: cs => escapeCharL c ++ escapeMarkdownL cs

/-- core/notify/telegram.py `escape_markdown`. -/
def escape_markdown (s : String) : String :=
  ⟨escapeMarkdownL s.data⟩

/-! ## core/notify/telegram.py : process_message_for_markdown_v2

The link pattern `\[([^\]]+)\]\(([^)]+)\)` and the code pattern `` `([^`]+)` ``
are deterministic: a greedy nonempty complemented class followed by its
closing literal admits no backtracking, so a match attempt at a position
takes the maximal run and then demands the closing delimiter.  `re.sub`
scans left to right, restarting after each match and advancing one character
after each failed attempt; placeholders substituted into the output are not
rescanned.  The scanners below implement exactly that. -/

/-- Attempt the link pattern `\[([^\]]+)\]\(([^)]+)\)` with the leading `[`
already consumed; returns (link text, url, rest after the match). -/
def tryLinkAt (rest : List Char) : Option (List Char × List Char × List Char) :=
  let (txt, r1) := rest.span (fun d => d != ']')
  match txt, r1 with
  | _ :: _, ']' :: '(' :: r2 =>
    let (url, r3) := r2.span (fun d => d != ')')
    match url, r3 with
    | _ :: _, ')' :: r4 => some (txt, url, r4)
    | _, _ => none
  | _, _ => none

/-- The link placeholder `"\x00LINK{idx}\x00"`. -/
def linkMark (idx : Nat) : List Char :=
  '\x00' :: ("LINK".data ++ (Nat.repr idx).data) ++ ['\x00']

/-- The code placeholder `"\x01CODE{idx}\x01"`. -/
def codeMark (idx : Nat) : List Char :=
  '\x01' :: ("CODE".data ++ (Nat.repr idx).data) ++ ['\x01']

/-- Link extraction pass of `process_message_for_markdown_v2` (the `re.sub`
with `save_link`).  `fuel ≥ length` always suffices: every step consumes at
least one character. -/
def extractLinksAux (fuel : Nat) (cs : List Char)
    (links : List (List Char × List Char)) :
    List Char × List (List Char × List Char) :=
  match fuel, cs with
  | 0, cs => (cs, links)
  | _ + 1, [] => ([], links)
  | fuel + 1, c :: rest =>
    if c == '[' then
      match tryLinkAt rest with
      | some (txt, url, r4) =>
        let (out, links') := extractLinksAux fuel r4 (links ++ [(txt, url)])
        (linkMark links.length ++ out, links')
      | none =>
        let (out, links') := extractLinksAux fuel rest links
        (c :: out, links')
    else
      let (out, links') := extractLinksAux fuel rest links
      (c :: out, links')

/-- Attempt the code pattern `` `([^`]+)` `` with the leading backtick
already consumed. -/
def tryCodeAt (rest : List Char) : Option (List Char × List Char) :=
  let (code, r1) := rest.span (fun d => d != '`')
  match code, r1 with
  | _ :: _, '`' :: r2 => some (code, r2)
  | _, _ => none

/-- Code-span extraction pass (the `re.sub` with `save_code`). -/
def extractCodesAux (fuel : Nat) (cs : List Char) (codes : List (List Char)) :
    List Char × List (List Char) :=
  match fuel, cs with
  | 0, cs => (cs, codes)
  | _ + 1, [] => ([], codes)
  | fuel + 1, c :: rest =>
    if c == '`' then
      match tryCodeAt rest with
      | some (code, r2) =>
        let (out, codes') := extractCodesAux fuel r2 (codes ++ [code])
        (codeMark codes.length ++ out, codes')
      | none =>
        let (out, codes') := extractCodesAux fuel rest codes
        (c :: out, codes')
    else
      let (out, codes') := extractCodesAux fuel rest codes
      (c :: out, codes')

/-- Bold pass: `re.finditer(r'\*([^*]+)\*')`, escaping the gaps between
matches wholesale and the bold contents separately, keeping the `*`
delimiters.  Escaping a gap character-wise equals escaping the gap wholesale
because `escape_markdown` acts per character. -/
def processBoldAux (fuel : Nat) (cs : List Char) : List Char :=
  match fuel, cs with
  | 0, cs => escapeMarkdownL cs
  | _ + 1, [] => []
  | fuel + 1, c :: rest =>
    if c == '*' then
      let (content, r1) := rest.span (fun d => d != '*')
      match content, r1 with
      | _ :: _, '*' :: r2 =>
        '*' :: (escapeMarkdownL content ++ '*' :: processBoldAux fuel r2)
      | _, _ => c :: processBoldAux fuel rest
    else
      escapeCharL c ++ processBoldAux fuel rest

/-- Python `str.replace` (all non-overlapping occurrences, left to right).
All call sites pass a nonempty pattern. -/
def replaceAllAux (fuel : Nat) (pat repl : List Char) (cs : List Char) : List Char :=
  match fuel, cs with
  | 0, cs => cs
  | _ + 1, [] => []
  | fuel + 1, c :: rest =>
    if leadsWith pat (c :: rest) then
      repl ++ replaceAllAux fuel pat repl (List.drop pat.length (c :: rest))
    else
      c :: replaceAllAux fuel pat repl rest

/-- Python `str.replace`. -/
def replaceAllL (pat repl cs : List Char) : List Char :=
  match pat with
  | [] => cs
  | _ => replaceAllAux cs.length pat repl cs

/-- Link restoration loop: each placeholder (run through `escape_markdown`,
which leaves it unchanged — the source escapes it anyway and so do we) is
replaced by `[escaped text](url)`. -/
def restoreLinksAux : Nat → List (List Char × List Char) → List Char → List Char
  | _, [], r => r
  | idx, (txt, url) :: more, r =>
    restoreLinksAux (idx + 1) more
      (replaceAllL (escapeMarkdownL (linkMark idx))
        ('[' :: (escapeMarkdownL txt ++ ']' :: '(' :: (url ++ [')']))) r)

/-- Code restoration loop: placeholder replaced by `` `escaped code` ``. -/
def restoreCodesAux : Nat → List (List Char) → List Char → List Char
  | _, [], r => r
  | idx, code :: more, r =>
    restoreCodesAux (idx + 1) more
      (replaceAllL (escapeMarkdownL (codeMark idx))
        ('`' :: (escapeMarkdownL code ++ ['`'])) r)

/-- core/notify/telegram.py `process_message_for_markdown_v2`. -/
def process_message_for_markdown_v2 (text : String) : String :=
  let cs := text.data
  let (t1, links) := extractLinksAux cs.length cs []
  let (t2, codes) := extractCodesAux t1.length t1 []
  let bolded := processBoldAux t2.length t2
  let r1 := restoreLinksAux 0 links bolded
  let r2 := restoreCodesAux 0 codes r1
  ⟨r2⟩

/-! ## core/notify/telegram.py : clean_for_telegram -/

/-- Header-strip pass: `re.sub(r'^#{1,6}\s*', '', text, flags=re.MULTILINE)`.
`atStart` tracks whether the current position is a line start of the original
string (position 0 or preceded by a newline); after a match the scanner
continues behind the consumed whitespace, which is a line start exactly when
the last consumed character was a newline (`\s` includes newlines). -/
def stripHeadersAux (fuel : Nat) (atStart : Bool) (cs : List Char) : List Char :=
  match fuel, cs with
  | 0, cs => cs
  | _ + 1, [] => []
  | fuel + 1, c :: rest =>
    if atStart && c == '#' then
      let (hashes, _) := (c :: rest).span (fun d => d == '#')
      let taken := min hashes.length 6
      let afterHash := List.drop taken (c :: rest)
      let (ws, r2) := afterHash.span pyIsSpaceB
      stripHeadersAux fuel (ws.getLast? == some '\n') r2
    else
      c :: stripHeadersAux fuel (c == '\n') rest

/-- Match `\d+\.\d+\.\d+` at the head; returns (matched chars, rest). -/
def tryVersionNum (cs : List Char) : Option (List Char × List Char) :=
  let (d1, r1) := cs.span pyIsDigitB
  match d1, r1 with
  | _ :: _, '.' :: r2 =>
    let (d2, r3) := r2.span pyIsDigitB
    match d2, r3 with
    | _ :: _, '.' :: r4 =>
      let (d3, r5) := r4.span pyIsDigitB
      match d3 with
      | _ :: _ => some (d1 ++ '.' :: d2 ++ '.' :: d3, r5)
      | _ => none
    | _, _ => none
  | _, _ => none

/-- Index (from the front) just before the last newline of `ws`, if any. -/
def lastNewlineCut (ws : List Char) : Option Nat :=
  match ws with
  | [] => none
  | c :: rest =>
    match lastNewlineCut rest with
    | some k => some (k + 1)
    | none => if c == '\n' then some 0 else none

/-- Version-line removal pass:
`re.sub(r'^\d+\.\d+\.\d+\s*$', '', text, flags=re.MULTILINE)`.
After the digits, `\s*` is greedy and backtracks until `$` holds (position is
the end of the string, or the next character is a newline): the consumed
whitespace is the full run when the run reaches the end of the string, and
otherwise everything strictly before the run's last newline; if the run ends
mid-string and contains no newline the attempt fails. -/
def stripVersionLinesAux (fuel : Nat) (atStart : Bool) (cs : List Char) : List Char :=
  match fuel, cs with
  | 0, cs => cs
  | _ + 1, [] => []
  | fuel + 1, c :: rest =>
    match atStart, tryVersionNum (c :: rest) with
    | true, some (_, r5) =>
      let (ws, tail) := r5.span pyIsSpaceB
      match tail with
      | [] => []
      | _ :: _ =>
        match lastNewlineCut ws with
        | some k =>
          let consumedLast := (List.take k ws).getLast?
          let lastChar := match consumedLast with
            | some d => d
            | none => '0'
          stripVersionLinesAux fuel (lastChar == '\n') (List.drop k ws ++ tail)
        | none => c :: stripVersionLinesAux fuel (c == '\n') rest
    | _, _ => c :: stripVersionLinesAux fuel (c == '\n') rest

/-- Bullet pass: `re.sub(r'^- ', '• ', text, flags=re.MULTILINE)`: a dash
and a space at a line start become a bullet and a space. -/
def bulletAux (fuel : Nat) (atStart : Bool) (cs : List Char) : List Char :=
  match fuel, cs with
  | 0, cs => cs
  | _ + 1, [] => []
  | fuel + 1, c :: rest =>
    if atStart && c == '-' && rest.head? == some ' ' then
      '•' :: ' ' :: bulletAux fuel false (rest.drop 1)
    else c :: bulletAux fuel (c == '\n') rest

/-- Blank-line collapse: `re.sub(r'\n{3,}', '\n\n', text)`. -/
def collapseNewlinesAux (fuel : Nat) (cs : List Char) : List Char :=
  match fuel, cs with
  | 0, cs => cs
  | _ + 1, [] => []
  | fuel + 1, c :: rest =>
    if c == '\n' then
      let (nls, r2) := (c :: rest).span (fun d => d == '\n')
      if nls.length ≥ 3 then '\n' :: '\n' :: collapseNewlinesAux fuel r2
      else nls ++ collapseNewlinesAux fuel r2
    else c :: collapseNewlinesAux fuel rest

/-- core/notify/telegram.py `clean_for_telegram`. -/
def clean_for_telegram (text : String) (removeVersion : Bool := false) : String :=
  let t1 := stripHeadersAux text.data.length true text.data
  let t2 := if removeVersion then stripVersionLinesAux t1.length true t1 else t1
  let t3 := bulletAux t2.length true t2
  let t4 := collapseNewlinesAux t3.length t3
  ⟨pyStripL t4⟩

/-! ## core/notify/telegraph.py : markdown_to_html

Each `re.sub` pass is specialised to its pattern.  Lazy groups (`.+?`, `.*?`)
are implemented by extending the candidate content one character at a time
and testing the closing delimiter first, exactly as the regex engine does;
`.` never matches a newline (none of these patterns uses DOTALL except the
fenced-code pass, whose laziness is handled by searching the earliest
closing fence). -/

/-- Split into lines, map, and re-join: the effect of a MULTILINE `re.sub`
whose pattern is anchored `^...$` and whose replacement has no newline. -/
def mapLinesL (f : List Char → List Char) (cs : List Char) : List Char :=
  joinLinesL ((splitLinesL cs).map f)

/-- One header pass `^MARKS (.+)$` → `TAGO…TAGC` on a single line. -/
def headerLine (marks tagO tagC line : List Char) : List Char :=
  if leadsWith (marks ++ [' ']) line then
    match List.drop (marks.length + 1) line with
    | [] => line
    | c :: rest => tagO ++ (c :: rest) ++ tagC
  else line

/-- Earliest occurrence of the closing fence `\n‌` followed by three
backticks; returns (content before it, rest after it).  This is the lazy
group `(.*?)` of the fenced-code pattern. -/
def findFenceClose (fuel : Nat) (acc cs : List Char) : Option (List Char × List Char) :=
  match fuel, cs with
  | 0, _ => none
  | _ + 1, [] => none
  | f + 1, c :: rest =>
    if leadsWith ['\n', '`', '`', '`'] (c :: rest) then
      some (acc, List.drop 4 (c :: rest))
    else findFenceClose f (acc ++ [c]) rest

/-- Fenced-code pass: ``re.sub(r'```[\w]*\n(.*?)\n```', r'<pre>\1</pre>',
text, flags=re.DOTALL)``. -/
def fencePassAux (fuel : Nat) (cs : List Char) : List Char :=
  match fuel, cs with
  | 0, cs => cs
  | _ + 1, [] => []
  | fuel + 1, c :: rest =>
    if leadsWith ['`', '`', '`'] (c :: rest) then
      let r1 := List.drop 3 (c :: rest)
      let (_w, r2) := r1.span pyIsWordB
      match r2 with
      | '\n' :: r3 =>
        match findFenceClose r3.length [] r3 with
        | some (content, rest') =>
          "<pre>".data ++ content ++ "</pre>".data ++ fencePassAux fuel rest'
        | none => c :: fencePassAux fuel rest
      | _ => c :: fencePassAux fuel rest
    else c :: fencePassAux fuel rest

/-- Inline-code pass: `` re.sub(r'`([^`]+)`', r'<code>\1</code>', text) ``. -/
def codePassAux (fuel : Nat) (cs : List Char) : List Char :=
  match fuel, cs with
  | 0, cs => cs
  | _ + 1, [] => []
  | fuel + 1, c :: rest =>
    if c == '`' then
      match tryCodeAt rest with
      | some (code, r2) =>
        "<code>".data ++ code ++ "</code>".data ++ codePassAux fuel r2
      | none => c :: codePassAux fuel rest
    else c :: codePassAux fuel rest

/-- The lazy group of `\*\*(.+?)\*\*` (and of `__(.+?)__`): extend a
nonempty newline-free content until the two-character closing delimiter. -/
def findLazyClose (d : Char) (fuel : Nat) (acc cs : List Char) :
    Option (List Char × List Char) :=
  match fuel, cs with
  | 0, _ => none
  | _ + 1, [] => none
  | f + 1, c :: rest =>
    if c == '\n' then none
    else if leadsWith [d, d] rest then some (acc ++ [c], List.drop 2 rest)
    else findLazyClose d f (acc ++ [c]) rest

/-- Bold pass: `re.sub(r'\*\*(.+?)\*\*', r'<b>\1</b>', text)` (and the same
with `__`). -/
def boldPassAux (d : Char) (fuel : Nat) (cs : List Char) : List Char :=
  match fuel, cs with
  | 0, cs => cs
  | _ + 1, [] => []
  | fuel + 1, c :: rest =>
    if c == d && rest.head? == some d then
      match findLazyClose d (List.drop 1 rest).length [] (List.drop 1 rest) with
      | some (content, rest') =>
        "<b>".data ++ content ++ "</b>".data ++ boldPassAux d fuel rest'
      | none => c :: boldPassAux d fuel rest
    else c :: boldPassAux d fuel rest

/-- The lazy group of the italic pattern
`(?<!\*)\*(?!\*)(.+?)(?<!\*)\*(?!\*)`: the closing delimiter must not be
adjacent to another delimiter character; `lastC` is the character directly
before the current position (initially the opening delimiter). -/
def findItalClose (d : Char) (fuel : Nat) (lastC : Char) (acc cs : List Char) :
    Option (List Char × List Char) :=
  match fuel, cs with
  | 0, _ => none
  | _ + 1, [] => none
  | f + 1, c :: rest =>
    if c == d && lastC != d && acc != [] && rest.head? != some d then
      some (acc, rest)
    else if c == '\n' then none
    else findItalClose d f c (acc ++ [c]) rest

/-- Italic pass for `*` (and `_`): `prev` is the character before the
current position in the original string (the lookbehind of the opening
delimiter; `none` at the start of the string). -/
def italPassAux (d : Char) (fuel : Nat) (prev : Option Char) (cs : List Char) : List Char :=
  match fuel, cs with
  | 0, cs => cs
  | _ + 1, [] => []
  | fuel + 1, c :: rest =>
    if c == d && prev != some d && rest.head? != some d then
      match findItalClose d rest.length d [] rest with
      | some (content, rest') =>
        "<i>".data ++ content ++ "</i>".data ++ italPassAux d fuel (some d) rest'
      | none => c :: italPassAux d fuel (some c) rest
    else c :: italPassAux d fuel (some c) rest

/-- Link pass: `re.sub(r'\[([^\]]+)\]\(([^)]+)\)', r'<a href="\2">\1</a>')`. -/
def linkHtmlAux (fuel : Nat) (cs : List Char) : List Char :=
  match fuel, cs with
  | 0, cs => cs
  | _ + 1, [] => []
  | fuel + 1, c :: rest =>
    if c == '[' then
      match tryLinkAt rest with
      | some (txt, url, r4) =>
        "<a href=\"".data ++ url ++ "\">".data ++ txt ++ "</a>".data ++ linkHtmlAux fuel r4
      | none => c :: linkHtmlAux fuel rest
    else c :: linkHtmlAux fuel rest

/-- `re.match(r'^[-•]\s+(.+)$', line)`: a list-item line.  The greedy `\s+`
backtracks just enough for `(.+)` to be nonempty: the content is the part
after the whitespace run, or the run's last character when the whole rest is
whitespace of length at least two. -/
def listItemMatch (line : List Char) : Option (List Char) :=
  match line with
  | c :: rest =>
    if c == '-' || c == '•' then
      let (ws, tail) := rest.span pyIsSpaceB
      match ws, tail with
      | [], _ => none
      | _ :: _, t :: ts => some (t :: ts)
      | w :: wrest, [] =>
        if wrest = [] then none else some [(w :: wrest).getLast (by simp)]
    else none
  | [] => none

/-- `"<ul>" + "".join(list_items) + "</ul>"`. -/
def itemsWrap (items : List (List Char)) : List Char :=
  "<ul>".data ++ items.flatten ++ "</ul>".data

/-- The list-wrapping loop of `markdown_to_html`: consecutive list items are
collected into `<ul><li>…</li></ul>`; other nonempty lines become
`<p>…</p>` unless they already start with a tag; blank lines are dropped. -/
def listWrapLoop : List (List Char) → Bool → List (List Char) → List (List Char) →
    List (List Char)
  | [], inList, items, out => if inList then out ++ [itemsWrap items] else out
  | line :: more, inList, items, out =>
    match listItemMatch line with
    | some content =>
      listWrapLoop more true
        ((if inList then items else []) ++ ["<li>".data ++ content ++ "</li>".data]) out
    | none =>
      let out1 := if inList then out ++ [itemsWrap items] else out
      let stripped := pyStripL line
      let out2 :=
        if stripped != [] && stripped.head? != some '<' then
          out1 ++ ["<p>".data ++ stripped ++ "</p>".data]
        else if stripped != [] then out1 ++ [stripped]
        else out1
      listWrapLoop more false [] out2

/-- core/notify/telegraph.py `markdown_to_html`. -/
def markdown_to_html (text : String) : String :=
  let t1 := mapLinesL (headerLine ['#', '#'] "<h3>".data "</h3>".data) text.data
  let t2 := mapLinesL (headerLine ['#', '#', '#'] "<h4>".data "</h4>".data) t1
  let t3 := mapLinesL (headerLine ['#'] "<h3>".data "</h3>".data) t2
  let t4 := fencePassAux t3.length t3
  let t5 := codePassAux t4.length t4
  let t6 := boldPassAux '*' t5.length t5
  let t7 := boldPassAux '_' t6.length t6
  let t8 := italPassAux '*' t7.length none t7
  let t9 := italPassAux '_' t8.length none t8
  let t10 := linkHtmlAux t9.length t9
  ⟨joinLinesL (listWrapLoop (splitLinesL t10) false [] [])⟩

/-! ## core/notify/telegraph.py : _strip_changelog_section

Pattern: `(?m)^(?:\*{0,2}#{0,4}\s*Changelog\s*\*{0,2})\s*\n.*` with
DOTALL and IGNORECASE.  The trailing `.*` is greedy and DOTALL, so a match
removes everything from the first matching line start to the end of the
string; the result is then `rstrip`ped. -/

/-- `\s*\n` at the head of `cs`: some whitespace and then a newline
(a newline is itself whitespace, so this holds exactly when a newline occurs
before the first non-whitespace character). -/
def wsThenNewline : List Char → Bool
  | [] => false
  | c :: rest => c == '\n' || (pyIsSpaceB c && wsThenNewline rest)

/-- `\*{0,2}\s*\n` at the head of `cs` (the possible star counts are tried
existentially; the overall match extent is the whole rest either way). -/
def starsWsNewline (cs : List Char) : Bool :=
  wsThenNewline cs ||
    (match cs with
     | '*' :: r =>
       wsThenNewline r ||
         (match r with
          | '*' :: r2 => wsThenNewline r2
          | _ => false)
     | _ => false)

/-- `\s*\*{0,2}\s*\n` at the head of `cs`. -/
def changelogTailAt : List Char → Bool
  | [] => false
  | c :: rest => starsWsNewline (c :: rest) || (pyIsSpaceB c && changelogTailAt rest)

/-- Candidate remainders after `\*{0,2}` (zero, one or two literal stars). -/
def starDrops (cs : List Char) : List (List Char) :=
  match cs with
  | '*' :: r =>
    match r with
    | '*' :: r2 => [cs, r, r2]
    | _ => [cs, r]
  | _ => [cs]

/-- Candidate remainders after `#{0,4}`. -/
def hashDrops (cs : List Char) : List (List Char) :=
  match cs with
  | '#' :: r1 =>
    match r1 with
    | '#' :: r2 =>
      match r2 with
      | '#' :: r3 =>
        match r3 with
        | '#' :: r4 => [cs, r1, r2, r3, r4]
        | _ => [cs, r1, r2, r3]
      | _ => [cs, r1, r2]
    | _ => [cs, r1]
  | _ => [cs]

/-- Case-insensitive literal match (IGNORECASE applies to `Changelog`). -/
def leadsWithCI : List Char → List Char → Bool
  | [], _ => true
  | _ :: _, [] => false
  | p :: ps, c :: cs => p.toLower == c.toLower && leadsWithCI ps cs

/-- Does `\*{0,2}#{0,4}\s*Changelog\s*\*{0,2}\s*\n` match at this
(line-start) position? -/
def matchChangelogAt (cs : List Char) : Bool :=
  (starDrops cs).any fun cs1 =>
    (hashDrops cs1).any fun cs2 =>
      let cs3 := dropWhileB pyIsSpaceB cs2
      leadsWithCI "changelog".data cs3 && changelogTailAt (List.drop 9 cs3)

/-- Scan for the first line start matching the Changelog-header pattern and
truncate there. -/
def stripChangelogAux (fuel : Nat) (atStart : Bool) (cs : List Char) : List Char :=
  match fuel, cs with
  | 0, cs => cs
  | _ + 1, [] => []
  | fuel + 1, c :: rest =>
    if atStart && matchChangelogAt (c :: rest) then []
    else c :: stripChangelogAux fuel (c == '\n') rest

/-- core/notify/telegraph.py `_strip_changelog_section`. -/
def strip_changelog_section (text : String) : String :=
  ⟨pyStripRight (stripChangelogAux text.data.length true text.data)⟩

/-! ## Effect model

Outbound calls are modelled by an oracle environment: each call appends an
`Event` to the run's trace and takes its result from the oracle, indexed by
the number of calls of the same kind already made.  The HTTP layer, the
token/chat-id configuration checks, JSON decoding and `html_to_nodes` (all
inside the transport functions) are abstracted into the oracle results; an
event records a call with its raw arguments. -/

/-- Result dictionary of `send_telegram_message` / `edit_telegram_message`:
`{"success": bool, "message_id": int or None}`. -/
structure SendResult where
  success : Bool
  message_id : Option Nat
  deriving DecidableEq, Repr

/-- Result dictionary of `create_page`:
`{"success": bool, "url": …, "path": …, "error": …}`. -/
structure PageResult where
  success : Bool
  url : Option String
  path : Option String
  error : Option String
  deriving DecidableEq, Repr

/-- One `litellm.completion` outcome: an exception, a response with empty
`choices`, or a response with message content `s`. -/
inductive LLMResponse where
  | exn
  | emptyChoices
  | content (s : String)

/-- The oracle environment: results of the outbound calls (indexed by the
per-kind call count), the MD5 hex digest of `hashlib` (an external library),
the LLM API key, and the body returned by the changelog fetch (`none` for a
request failure; the source also treats an empty body as a failure). -/
structure Env where
  sendResult : Nat → SendResult
  editResult : Nat → SendResult
  pageResult : Nat → PageResult
  llmResponse : Nat → LLMResponse
  md5hex : String → String
  apiKey : String
  fetchedChangelog : Option String

/-- Observable outbound calls of a run. -/
inductive Event where
  | send (message : String)
  | edit (messageId : Nat) (message : String)
  | page (title contentHtml : String)
  | llm (prompt : String)
  deriving DecidableEq, Repr

/-- A run's trace of outbound calls, oldest first. -/
abbrev Trace := List Event

/-- Number of Telegram send calls in a trace. -/
def countSends : Trace → Nat
  | [] => 0
  | Event.send _ :: tr => countSends tr + 1
  | _ :: tr => countSends tr

/-- Number of Telegram edit calls in a trace. -/
def countEdits : Trace → Nat
  | [] => 0
  | Event.edit _ _ :: tr => countEdits tr + 1
  | _ :: tr => countEdits tr

/-- Number of Telegraph createPage calls in a trace. -/
def countPages : Trace → Nat
  | [] => 0
  | Event.page _ _ :: tr => countPages tr + 1
  | _ :: tr => countPages tr

/-- Number of LLM completion calls in a trace. -/
def countLlm : Trace → Nat
  | [] => 0
  | Event.llm _ :: tr => countLlm tr + 1
  | _ :: tr => countLlm tr

/-- The messages of the send calls of a trace, in order. -/
def sendsOf : Trace → List String
  | [] => []
  | Event.send m :: tr => m :: sendsOf tr
  | _ :: tr => sendsOf tr

/-- The (message id, message) pairs of the edit calls of a trace, in order. -/
def editsOf : Trace → List (Nat × String)
  | [] => []
  | Event.edit i m :: tr => (i, m) :: editsOf tr
  | _ :: tr => editsOf tr

/-- The (title, html) pairs of the createPage calls of a trace, in order. -/
def pagesOf : Trace → List (String × String)
  | [] => []
  | Event.page t h :: tr => (t, h) :: pagesOf tr
  | _ :: tr => pagesOf tr

/-- core/notify/telegram.py `send_telegram_message` (the source applies
`process_message_for_markdown_v2` to the message and POSTs the processed
text; the event records the call with its raw argument, and the outcome of
the POST comes from the oracle). -/
def send_telegram_message (env : Env) (message : String) (tr : Trace) :
    SendResult × Trace :=
  (env.sendResult (countSends tr), tr ++ [Event.send message])

/-- core/notify/telegram.py `edit_telegram_message` (same modelling; the
"message is not modified" special case is part of the oracle's outcome). -/
def edit_telegram_message (env : Env) (messageId : Nat) (message : String)
    (tr : Trace) : SendResult × Trace :=
  (env.editResult (countEdits tr), tr ++ [Event.edit messageId message])

/-- core/notify/telegram.py `MAX_MESSAGE_LENGTH`. -/
def MAX_MESSAGE_LENGTH : Nat := 4096

/-! ## core/notify/telegraph.py : create_page and publish_changelog -/

/-- core/notify/telegraph.py `PRODUCT_AUTHORS`. -/
def PRODUCT_AUTHORS (title : String) : Option (String × String) :=
  if title = "Claude Code" then
    some ("Claude Code Changelog", "https://t.me/claude_code_push")
  else if title = "Codex" then
    some ("Codex Changelog", "https://t.me/codex_push")
  else none

/-- core/notify/telegraph.py `create_page` (the access-token check, the
`html_to_nodes` conversion and the HTTP POST are abstracted into the
oracle result; author metadata is part of the abstracted payload). -/
def create_page (env : Env) (title contentHtml : String)
    (_authorName _authorUrl : Option String) (tr : Trace) : PageResult × Trace :=
  (env.pageResult (countPages tr), tr ++ [Event.page title contentHtml])

/-- The inner `_build_html` of `publish_changelog`:
`"\n".join([markdown_to_html(orig)] + (["<hr>", markdown_to_html(trans)] if trans else []))`.

An absent translation is the empty string (Python passes `None` or a
string, and tests it by truthiness, which identifies `None` and `""`). -/
def build_html (orig trans : String) : String :=
  if trans ≠ "" then
    markdown_to_html orig ++ "\n" ++ "<hr>" ++ "\n" ++ markdown_to_html trans
  else markdown_to_html orig

/-- The article title of `publish_changelog`:
`f"{title} {version} Release Notes" if version else f"{title} Release Notes"`. -/
def page_title_of (title version : String) : String :=
  if version ≠ "" then title ++ " " ++ version ++ " Release Notes"
  else title ++ " Release Notes"

/-- core/notify/telegraph.py `publish_changelog`: one createPage attempt;
on a `CONTENT_TOO_BIG` rejection, exactly one retry with the Changelog
section stripped from both texts. -/
def publish_changelog (env : Env) (title original : String)
    (translated : String := "") (version : String := "") (tr : Trace) :
    PageResult × Trace :=
  let pageTitle := page_title_of title version
  let author := PRODUCT_AUTHORS title
  let contentHtml := build_html original translated
  let (result, tr1) :=
    create_page env pageTitle contentHtml (author.map Prod.fst) (author.map Prod.snd) tr
  if result.success || result.error != some "CONTENT_TOO_BIG" then (result, tr1)
  else
    let trimmedOriginal := strip_changelog_section original
    let trimmedTranslated :=
      if translated ≠ "" then strip_changelog_section translated else ""
    let contentHtml2 := build_html trimmedOriginal trimmedTranslated
    create_page env pageTitle contentHtml2 (author.map Prod.fst) (author.map Prod.snd) tr1

/-! ## core/notify/telegram.py : _build_bilingual_messages and dispatch -/

/-- Python `"\n".join`. -/
def joinNl : List String → String
  | [] => ""
  | [s] => s
  | s :: s' :: rest => s ++ "\n" ++ joinNl (s' :: rest)

/-- The dictionary built by `_build_bilingual_messages`. -/
structure BuiltMessages where
  en_message : String
  cn_message : String
  combined_message : String
  is_oversized : Bool
  is_single_oversized : Bool
  combined_length : Nat
  en_length : Nat
  cn_length : Nat
  en_title : String
  cn_title : String
  deriving Repr

/-- core/notify/telegram.py `_build_bilingual_messages`.  Optional Python
arguments tested by truthiness (`translated`, `version_url`, `title`) are
strings, with `""` for an absent value. -/
def build_bilingual_messages (version original translated title : String)
    (versionUrl : String := "") : BuiltMessages :=
  let originalClean := clean_for_telegram original true
  let translatedClean := if translated ≠ "" then clean_for_telegram translated true else ""
  let originalEn : String := ⟨replaceAllL "链接:".data "Source:".data originalClean.data⟩
  let enTitle :=
    if versionUrl ≠ "" then
      "*" ++ title ++ " [" ++ version ++ "](" ++ versionUrl ++ ") Released*"
    else "*" ++ title ++ " " ++ version ++ " Released*"
  let cnTitle :=
    if versionUrl ≠ "" then
      "*" ++ title ++ " [" ++ version ++ "](" ++ versionUrl ++ ") 发布*"
    else "*" ++ title ++ " " ++ version ++ " 发布*"
  let enMessage := joinNl (if title ≠ "" then [enTitle, "", originalEn] else [originalEn])
  let cnContent := if translatedClean ≠ "" then translatedClean else "（无翻译）"
  let cnMessage := joinNl (if title ≠ "" then [cnTitle, "", cnContent] else [cnContent])
  let combinedMessage := joinNl
    ((if title ≠ "" then [enTitle, "", originalEn] else [originalEn]) ++
      (if translatedClean ≠ "" then ["", translatedClean] else []))
  let combinedLength := (process_message_for_markdown_v2 combinedMessage).length
  let enLength := (process_message_for_markdown_v2 enMessage).length
  let cnLength := (process_message_for_markdown_v2 cnMessage).length
  { en_message := enMessage
    cn_message := cnMessage
    combined_message := combinedMessage
    is_oversized := combinedLength > MAX_MESSAGE_LENGTH
    is_single_oversized := enLength > MAX_MESSAGE_LENGTH || cnLength > MAX_MESSAGE_LENGTH
    combined_length := combinedLength
    en_length := enLength
    cn_length := cnLength
    en_title := enTitle
    cn_title := cnTitle }

/-- `[result["message_id"]] if result["message_id"] else []` (Python
truthiness: both `None` and `0` give the empty list). -/
def truthyIds : Option Nat → List Nat
  | some i => if i = 0 then [] else [i]
  | none => []

/-- Result dictionary of `send_bilingual_notification`. -/
structure NotifyResult where
  success : Bool
  message_ids : List Nat
  telegraph_url : Option String
  deriving DecidableEq, Repr

/-- The short message sent when content went to Telegraph:
`f"{en_title}\n\n[View Full Changelog | 查看完整更新日志]({telegraph_url})"`
(Python interpolates `None` as the string `"None"`). -/
def shortMessageEn (enTitle : String) (url : Option String) : String :=
  enTitle ++ "\n\n[View Full Changelog | 查看完整更新日志](" ++
    (match url with | some u => u | none => "None") ++ ")"

/-- The Chinese short message used by the edit path:
`f"{cn_title}\n\n[查看完整更新日志]({telegraph_url})"`. -/
def shortMessageCn (cnTitle : String) (url : Option String) : String :=
  cnTitle ++ "\n\n[查看完整更新日志](" ++
    (match url with | some u => u | none => "None") ++ ")"

/-- core/notify/telegram.py `send_bilingual_notification` (the bot token and
chat id are abstracted into the transport oracle). -/
def send_bilingual_notification (env : Env) (version original translated title : String)
    (versionUrl : String := "") (tr : Trace) : NotifyResult × Trace :=
  let msgs := build_bilingual_messages version original translated title versionUrl
  if msgs.is_single_oversized then
    let (telegraphResult, tr1) := publish_changelog env title original translated version tr
    if telegraphResult.success = false then
      ({ success := false, message_ids := [], telegraph_url := none }, tr1)
    else
      let shortMessage := shortMessageEn msgs.en_title telegraphResult.url
      let (result, tr2) := send_telegram_message env shortMessage tr1
      ({ success := result.success
         message_ids := truthyIds result.message_id
         telegraph_url := telegraphResult.url }, tr2)
  else if msgs.is_oversized = false then
    let (result, tr1) := send_telegram_message env msgs.combined_message tr
    ({ success := result.success
       message_ids := truthyIds result.message_id
       telegraph_url := none }, tr1)
  else
    let (result1, tr1) := send_telegram_message env msgs.en_message tr
    let (result2, tr2) := send_telegram_message env msgs.cn_message tr1
    ({ success := result1.success && result2.success
       message_ids := truthyIds result1.message_id ++ truthyIds result2.message_id
       telegraph_url := none }, tr2)

/-- Result dictionary of `edit_bilingual_notification`. -/
structure EditResult where
  success : Bool
  message_ids : List Nat
  deriving DecidableEq, Repr

/-- The `for idx, message_id in enumerate(message_ids)` edit loop of the
Telegraph branch of `edit_bilingual_notification`: index 0 gets the English
short message, later indices the Chinese one. -/
def editShortLoop (env : Env) (shortEn shortCn : String) (idx : Nat)
    (ids : List Nat) (tr : Trace) : List SendResult × Trace :=
  match ids with
  | [] => ([], tr)
  | mid :: more =>
    let message := if idx = 0 then shortEn else shortCn
    let (r, tr1) := edit_telegram_message env mid message tr
    let (rs, tr2) := editShortLoop env shortEn shortCn (idx + 1) more tr1
    (r :: rs, tr2)

/-- core/notify/telegram.py `edit_bilingual_notification`. -/
def edit_bilingual_notification (env : Env) (messageIds : List Nat)
    (version original translated title : String) (versionUrl : String := "")
    (tr : Trace) : EditResult × Trace :=
  match messageIds with
  | [] => ({ success := false, message_ids := [] }, tr)
  | mid0 :: restIds =>
    let msgs := build_bilingual_messages version original translated title versionUrl
    if msgs.is_single_oversized then
      let (telegraphResult, tr1) := publish_changelog env title original translated version tr
      if telegraphResult.success = false then
        ({ success := false, message_ids := [] }, tr1)
      else
        let shortEn := shortMessageEn msgs.en_title telegraphResult.url
        let shortCn := shortMessageCn msgs.cn_title telegraphResult.url
        let (editResults, tr2) := editShortLoop env shortEn shortCn 0 (mid0 :: restIds) tr1
        let ok := editResults.all (fun r => r.success)
        ({ success := ok, message_ids := if ok then mid0 :: restIds else [] }, tr2)
    else
      match restIds with
      | [] =>
        if msgs.is_oversized = false then
          let (result, tr1) := edit_telegram_message env mid0 msgs.combined_message tr
          ({ success := result.success
             message_ids := if result.success then [mid0] else [] }, tr1)
        else
          let (result1, tr1) := edit_telegram_message env mid0 msgs.en_message tr
          let (result2, tr2) := send_telegram_message env msgs.cn_message tr1
          let newIds := mid0 :: truthyIds result2.message_id
          ({ success := result1.success && result2.success
             message_ids := if result1.success then newIds else [] }, tr2)
      | mid1 :: _ =>
        let (result1, tr1) := edit_telegram_message env mid0 msgs.en_message tr
        let (result2, tr2) := edit_telegram_message env mid1 msgs.cn_message tr1
        ({ success := result1.success && result2.success
           message_ids := mid0 :: restIds }, tr2)

/-! ## core/translate/llm.py -/

/-- `MIN_CHINESE_RATIO = 0.05` and `MAX_RETRIES = 2`.  The ratio check
`chinese_count / total_length >= 0.05` is a float comparison in the source;
both operands of the division are integers (exact in double precision for
any realisable string length), and the comparison is modelled by the exact
rational inequality `20 * chinese_count ≥ total_length`. -/
def MAX_RETRIES : Nat := 2

/-- core/translate/llm.py `_count_chinese_chars`: occurrences of
`[一-鿿]`. -/
def count_chinese_chars (s : String) : Nat :=
  s.data.countP (fun c => decide (0x4e00 ≤ c.toNat ∧ c.toNat ≤ 0x9fff))

/-- core/translate/llm.py `_check_translation_quality`. -/
def check_translation_quality (translated : String) : Bool :=
  if translated = "" then false
  else if translated.length = 0 then false
  else 20 * count_chinese_chars translated ≥ translated.length

/-- The translation prompt of `translate_changelog` (an f-string ending in
the content to translate). -/
def translate_prompt (content : String) : String :=
  "请将以下软件更新日志逐条翻译成中文，直接输出翻译结果。\n\n" ++
  "关键要求（必须严格遵守）：\n" ++
  "- 逐行翻译，禁止总结、合并或重新组织内容\n" ++
  "- 每个列表项（以 - 或 • 开头的行）必须单独翻译，不能合并成段落\n" ++
  "- 保持原文的结构和格式不变，翻译后的行数应与原文基本一致\n" ++
  "- 不要添加标题、摘要或任何原文没有的内容\n\n" ++
  "翻译示例（必须遵守）：\n" ++
  "- \"• Added new feature\" → \"• 新增功能\"\n" ++
  "- \"• Fixed bug in API\" → \"• 修复 API 中的错误\"\n" ++
  "- \"• Changed default behavior\" → \"• 变更默认行为\"\n" ++
  "- \"• Removed deprecated option\" → \"• 移除已弃用的选项\"\n" ++
  "- \"- fix: resolve issue\" → \"- fix: 解决问题\"（commit 前缀 fix/feat/chore 等保留英文）\n\n" ++
  "格式要求：\n" ++
  "1. 保持 Markdown 格式不变（标题、列表、代码块等）\n" ++
  "2. 版本号、行内代码保持原样\n" ++
  "3. 以下内容保留英文原文：\n" ++
  "   - GitHub 用户名：@xxx 格式保持不变\n" ++
  "   - 通用术语：API, SDK, CLI, Token, OAuth, WebSocket, Streaming, LLM, Prompt\n" ++
  "   - 功能名称：Agent, Subagent, Sub-agent, Skill, Hook, Plugin, Plan Mode, Compact Mode, Background Task, Memory, TUI, Sandbox, Transcript Mode\n" ++
  "   - 斜杠命令：/compact, /context, /permissions, /mcp, /model, /resume, /export, /stats, /init, /prompts, /approvals\n" ++
  "   - 工具与概念：MCP, Model Context Protocol, Tool Use, Tool Call, Bash Tool, Permission, Thinking Block, Frontmatter, exec_command, apply_patch, prompt cache, reasoning effort\n" ++
  "   - 配置文件：settings.json, CLAUDE.md, config.toml, AGENTS.md, .mcp.json\n" ++
  "4. 语言流畅自然，符合中文技术文档习惯\n" ++
  "5. 对于不确定的专有名词，保留英文\n\n" ++
  "待翻译内容：\n" ++ content

/-- The `for attempt in range(MAX_RETRIES + 1)` loop of
`translate_changelog`: each iteration performs one completion call; an
exception, an empty `choices` list or a quality failure continues with the
next attempt; a quality success returns the stripped content.  After the
last attempt the function returns the empty string. -/
def translateAttempts (env : Env) (content : String) : Nat → Trace → String × Trace
  | 0, tr => ("", tr)
  | n + 1, tr =>
    let response := env.llmResponse (countLlm tr)
    let tr1 := tr ++ [Event.llm (translate_prompt content)]
    match response with
    | LLMResponse.exn => translateAttempts env content n tr1
    | LLMResponse.emptyChoices => translateAttempts env content n tr1
    | LLMResponse.content s =>
      let translated := pyStrip s
      if check_translation_quality translated then (translated, tr1)
      else translateAttempts env content n tr1

/-- core/translate/llm.py `translate_changelog` (model and API key come from
arguments or environment variables; a missing key skips translation). -/
def translate_changelog (env : Env) (content : String) (tr : Trace) : String × Trace :=
  if env.apiKey = "" then ("", tr)
  else translateAttempts env content (MAX_RETRIES + 1) tr

/-! ## products/claude_code/checker.py

File persistence is the record `FS`; writing the version file and the
message-state file is modelled as always succeeding (the source's exception
handlers for file IO are not reachable in the model). -/

/-- The message-state file
`{"version": str, "message_ids": list, "body_hash": str}`. -/
structure MessageState where
  version : String
  message_ids : List Nat
  body_hash : String
  deriving DecidableEq, Repr

/-- The two persisted files of the checker. -/
structure FS where
  versionFile : Option String
  messageState : Option MessageState
  deriving DecidableEq, Repr

/-- `read_saved_version` (the file's content is stripped on reading). -/
def read_saved_version (fs : FS) : Option String :=
  fs.versionFile.map pyStrip

/-- `save_version`. -/
def save_version (version : String) (fs : FS) : FS :=
  { fs with versionFile := some version }

/-- `compute_body_hash`: `""` for a falsy body, else the MD5 hex digest. -/
def compute_body_hash (env : Env) (body : String) : String :=
  if body = "" then "" else env.md5hex body

/-- `read_message_state`. -/
def read_message_state (fs : FS) : Option MessageState :=
  fs.messageState

/-- `save_message_state`. -/
def save_message_state (version : String) (ids : List Nat) (bodyHash : String)
    (fs : FS) : FS :=
  { fs with messageState := some ⟨version, ids, bodyHash⟩ }

/-- `clear_message_state`: the message-state file is removed. -/
def clear_message_state (fs : FS) : FS :=
  { fs with messageState := none }

/-- `re.match(r'^## (\d+\.\d+\.\d+)', line)`: the version heading of a
changelog section (anything may follow the version number). -/
def parseVersionHead (line : List Char) : Option String :=
  match line with
  | '#' :: '#' :: ' ' :: rest =>
    match tryVersionNum rest with
    | some (v, _) => some ⟨v⟩
    | none => none
  | _ => none

/-- The scanning loop of `_parse_version_content`: record the first section
whose version matches the target (or the first section when there is no
target), stop at the next version heading. -/
def parseLoop (target : Option String) :
    List (List Char) → Option String → List (List Char) →
    Option String × List (List Char)
  | [], found, acc => (found, acc)
  | line :: more, found, acc =>
    match parseVersionHead line with
    | some current =>
      match found with
      | some _ => (found, acc)
      | none =>
        if target = none || target = some current then
          parseLoop target more (some current) (acc ++ [line])
        else parseLoop target more none acc
    | none =>
      match found with
      | some _ => parseLoop target more found (acc ++ [line])
      | none => parseLoop target more none acc

/-- `while content_lines and not content_lines[-1].strip(): pop()`. -/
def dropBlankRev : List (List Char) → List (List Char)
  | [] => []
  | l :: rest => if pyStripL l = [] then dropBlankRev rest else l :: rest

/-- products/claude_code/checker.py `_parse_version_content`. -/
def parse_version_content (changelog : String) (target : Option String) :
    Option (String × String) :=
  let (found, contentLines) := parseLoop target (splitLinesL changelog.data) none []
  match found with
  | none => none
  | some v => some (v, ⟨joinLinesL ((dropBlankRev contentLines.reverse).reverse)⟩)

/-- `parse_latest_version`. -/
def parse_latest_version (changelog : String) : Option (String × String) :=
  parse_version_content changelog none

/-- `parse_specific_version`. -/
def parse_specific_version (changelog : String) (target : String) : Option String :=
  (parse_version_content changelog (some target)).map Prod.snd

/-- `re.fullmatch(r'\d+\.\d+\.\d+', s)`. -/
def isVersionFormat (s : String) : Bool :=
  match tryVersionNum s.data with
  | some (_, rest) => rest.isEmpty
  | none => false

/-- Outcome of one checker run: the process exit code, the resulting file
state and the trace of outbound calls. -/
structure RunResult where
  exitCode : Nat
  fs : FS
  trace : Trace
  deriving DecidableEq, Repr

/-- products/claude_code/checker.py `main`, over the oracle environment and
the persisted state.  `force`/`targetVersion` are the `-f`/`-V` command-line
arguments. -/
def checker_main (env : Env) (force : Bool) (targetVersion : Option String)
    (fs : FS) : RunResult :=
  if targetVersion.isSome && !force then ⟨1, fs, []⟩
  else if (match targetVersion with
           | some t => !(isVersionFormat t)
           | none => false) then ⟨1, fs, []⟩
  else
    match env.fetchedChangelog with
    | none => ⟨1, fs, []⟩
    | some changelog =>
      if changelog = "" then ⟨1, fs, []⟩
      else
        match parse_latest_version changelog with
        | none => ⟨1, fs, []⟩
        | some (latestVersion, latestContent) =>
          if force then
            let pushPair : Option (String × String) :=
              match targetVersion with
              | some t => (parse_specific_version changelog t).map (fun c => (t, c))
              | none => some (latestVersion, latestContent)
            match pushPair with
            | none => ⟨1, fs, []⟩
            | some (pushVersion, pushContent) =>
              let (translated, tr1) := translate_changelog env pushContent []
              let (notify, tr2) :=
                send_bilingual_notification env pushVersion pushContent translated
                  "Claude Code" "" tr1
              if notify.success = false then ⟨1, fs, tr2⟩ else ⟨0, fs, tr2⟩
          else
            match read_saved_version fs with
            | none => ⟨0, save_version latestVersion fs, []⟩
            | some savedVersion =>
              if savedVersion = latestVersion then
                let currentBodyHash := compute_body_hash env latestContent
                match read_message_state fs with
                | some st =>
                  if st.version = latestVersion then
                    if (st.body_hash != currentBodyHash) &&
                        (st.message_ids != ([] : List Nat)) then
                      let (translated, tr1) := translate_changelog env latestContent []
                      let (editResult, tr2) :=
                        edit_bilingual_notification env st.message_ids latestVersion
                          latestContent translated "Claude Code" "" tr1
                      if editResult.success then
                        ⟨0, save_message_state latestVersion editResult.message_ids
                              currentBodyHash fs, tr2⟩
                      else ⟨1, clear_message_state fs, tr2⟩
                    else ⟨0, fs, []⟩
                  else ⟨0, fs, []⟩
                | none => ⟨0, fs, []⟩
              else
                let fs1 := save_version latestVersion fs
                let (translated, tr1) := translate_changelog env latestContent []
                let (notify, tr2) :=
                  send_bilingual_notification env latestVersion latestContent translated
                    "Claude Code" "" tr1
                if notify.success = false then ⟨1, fs1, tr2⟩
                else if notify.message_ids != ([] : List Nat) then
                  let bodyHash := compute_body_hash env latestContent
                  ⟨0, save_message_state latestVersion notify.message_ids bodyHash fs1, tr2⟩
                else ⟨0, fs1, tr2⟩

end RelTracker

/-! ## Concrete oracles and inputs used by witnesses and counterexamples -/

namespace RelTracker

/-- A transport result for a successful send producing message id 101. -/
def okSendResult : SendResult := { success := true, message_id := some 101 }

/-- An oracle whose first createPage is rejected as too large and whose
second succeeds; used to exercise the retry of `publish_changelog`. -/
def tooBigThenOkEnv : Env :=
  { sendResult := fun _ => okSendResult
    editResult := fun _ => okSendResult
    pageResult := fun n =>
      if n = 0 then { success := false, url := none, path := none, error := some "CONTENT_TOO_BIG" }
      else { success := true, url := some "https://telegra.ph/ok", path := some "ok", error := none }
    llmResponse := fun _ => LLMResponse.exn
    md5hex := fun _ => ""
    apiKey := ""
    fetchedChangelog := none }

/-- A changelog body with a Changelog commit-list section. -/
def c7orig : String := "Intro line\n\n**Changelog**\n- commit one\n- commit two"

/-- A translated body with a Changelog section. -/
def c7trans : String := "介绍\n\nChangelog\n- 提交"

/-- An oracle where every transport call succeeds (send ids 101, 102, …;
edit id 55; Telegraph page at a fixed URL). -/
def allOkEnv : Env :=
  { sendResult := fun n => { success := true, message_id := some (101 + n) }
    editResult := fun _ => { success := true, message_id := some 55 }
    pageResult := fun _ =>
      { success := true, url := some "https://telegra.ph/w", path := some "w", error := none }
    llmResponse := fun _ => LLMResponse.exn
    md5hex := fun _ => ""
    apiKey := ""
    fetchedChangelog := none }

/-- 3000 letters `a`: a single-language body below the message limit. -/
def aRun3000 : String := ⟨List.replicate 3000 'a'⟩

/-- 3000 letters `b`: a translation below the message limit. -/
def bRun3000 : String := ⟨List.replicate 3000 'b'⟩

/-- 4200 letters `a`: a body whose escaped single-language message exceeds
the limit. -/
def aRun4200 : String := ⟨List.replicate 4200 'a'⟩

/-- 2050 dots. -/
def dotRun : String := ⟨List.replicate 2050 '.'⟩

/-- An original text that opens a hyperlink whose closing parenthesis only
arrives in the translated text: alone, every character is escaped (length
4107 escaped); combined with the translation the span becomes a link whose
URL is not escaped (length 2057 escaped). -/
def c1orig : String := "[x](" ++ dotRun

/-- The translated text closing the hyperlink of `c1orig`. -/
def c1trans : String := ")"

/-- Oracle for checker runs: a fixed one-section changelog, a constant hash
digest, and successful transport; the LLM key is absent, so translation
degrades to the empty string. -/
def checkerEnv : Env :=
  { sendResult := fun n => { success := true, message_id := some (101 + n) }
    editResult := fun _ => { success := true, message_id := some 9 }
    pageResult := fun _ =>
      { success := true, url := some "https://telegra.ph/w", path := some "w", error := none }
    llmResponse := fun _ => LLMResponse.exn
    md5hex := fun _ => "H"
    apiKey := ""
    fetchedChangelog := some "## 1.0.0\n\n- Old entry" }

/-- `checkerEnv` with every Telegram edit failing (message gone upstream). -/
def editFailEnv : Env :=
  { checkerEnv with editResult := fun _ => { success := false, message_id := none } }

/-- `checkerEnv` fetching a newer version with every Telegram send failing. -/
def sendFailEnv : Env :=
  { checkerEnv with
    sendResult := fun _ => { success := false, message_id := none }
    fetchedChangelog := some "## 1.0.1\n\n- New entry" }

/-- Tracked state whose content hash no longer matches the fetched body. -/
def fsTracked : FS :=
  { versionFile := some "1.0.0", messageState := some ⟨"1.0.0", [9], "stale"⟩ }

/-- Tracked state whose content hash matches the fetched body. -/
def fsMatched : FS :=
  { versionFile := some "1.0.0", messageState := some ⟨"1.0.0", [9], "H"⟩ }

/-- State recording an older version and no message state. -/
def fsOld : FS :=
  { versionFile := some "1.0.0", messageState := none }

end RelTracker

/-! ## Helper lemmas: traces are append-homomorphic -/

namespace RelTracker

@[simp] theorem countSends_append (a b : Trace) :
    countSends (a ++ b) = countSends a + countSends b := by
  induction a with
  | nil => simp [countSends]
  | cons e a ih => cases e <;> simp [countSends, ih] <;> omega

@[simp] theorem countEdits_append (a b : Trace) :
    countEdits (a ++ b) = countEdits a + countEdits b := by
  induction a with
  | nil => simp [countEdits]
  | cons e a ih => cases e <;> simp [countEdits, ih] <;> omega

@[simp] theorem countPages_append (a b : Trace) :
    countPages (a ++ b) = countPages a + countPages b := by
  induction a with
  | nil => simp [countPages]
  | cons e a ih => cases e <;> simp [countPages, ih] <;> omega

@[simp] theorem countLlm_append (a b : Trace) :
    countLlm (a ++ b) = countLlm a + countLlm b := by
  induction a with
  | nil => simp [countLlm]
  | cons e a ih => cases e <;> simp [countLlm, ih] <;> omega

@[simp] theorem sendsOf_append (a b : Trace) :
    sendsOf (a ++ b) = sendsOf a ++ sendsOf b := by
  induction a with
  | nil => simp [sendsOf]
  | cons e a ih => cases e <;> simp [sendsOf, ih]

@[simp] theorem editsOf_append (a b : Trace) :
    editsOf (a ++ b) = editsOf a ++ editsOf b := by
  induction a with
  | nil => simp [editsOf]
  | cons e a ih => cases e <;> simp [editsOf, ih]

@[simp] theorem pagesOf_append (a b : Trace) :
    pagesOf (a ++ b) = pagesOf a ++ pagesOf b := by
  induction a with
  | nil => simp [pagesOf]
  | cons e a ih => cases e <;> simp [pagesOf, ih]

/-! ## Claim C7: the Telegraph retry policy -/

/-- C7: when the first createPage attempt either succeeds or fails with an
error other than `CONTENT_TOO_BIG`, `publish_changelog` performs exactly one
createPage call (with the full content) and returns its result; when the
first attempt is rejected as `CONTENT_TOO_BIG`, it performs exactly one
retry, whose content is built from both texts with the Changelog section
stripped, and returns the second result unconditionally (a second rejection
is not retried). -/
theorem C7_telegraph_retry (env : Env) (title original translated version : String)
    (tr : Trace) :
    ((env.pageResult (countPages tr)).success = true ∨
        (env.pageResult (countPages tr)).error ≠ some "CONTENT_TOO_BIG" →
      (publish_changelog env title original translated version tr).1 =
          env.pageResult (countPages tr) ∧
        (publish_changelog env title original translated version tr).2 =
          tr ++ [Event.page (page_title_of title version) (build_html original translated)]) ∧
    ((env.pageResult (countPages tr)).success = false ∧
        (env.pageResult (countPages tr)).error = some "CONTENT_TOO_BIG" →
      (publish_changelog env title original translated version tr).1 =
          env.pageResult (countPages tr + 1) ∧
        (publish_changelog env title original translated version tr).2 =
          tr ++ [Event.page (page_title_of title version) (build_html original translated),
            Event.page (page_title_of title version)
              (build_html (strip_changelog_section original)
                (if translated ≠ "" then strip_changelog_section translated else ""))]) := by
  constructor
  · intro h
    have hg : ((env.pageResult (countPages tr)).success ||
        ((env.pageResult (countPages tr)).error != some "CONTENT_TOO_BIG")) = true := by
      rcases h with h | h
      · simp [h]
      · simp [bne_iff_ne, h]
    simp [publish_changelog, create_page, hg]
  · rintro ⟨h1, h2⟩
    have hg : ((env.pageResult (countPages tr)).success ||
        ((env.pageResult (countPages tr)).error != some "CONTENT_TOO_BIG")) = false := by
      simp [h1, h2]
    simp [publish_changelog, create_page, hg, countPages]

/-- Witness for C7: a concrete environment whose first createPage attempt
is rejected as too large; the retry happens with the stripped content and
its result is returned. -/
theorem C7_telegraph_retry_witness :
    ((tooBigThenOkEnv.pageResult (countPages ([] : Trace))).success = false ∧
      (tooBigThenOkEnv.pageResult (countPages ([] : Trace))).error = some "CONTENT_TOO_BIG") ∧
    ((publish_changelog tooBigThenOkEnv "Claude Code" c7orig c7trans "1.0.1" []).1 =
        tooBigThenOkEnv.pageResult (countPages ([] : Trace) + 1) ∧
      (publish_changelog tooBigThenOkEnv "Claude Code" c7orig c7trans "1.0.1" []).2 =
        ([] : Trace) ++
          [Event.page (page_title_of "Claude Code" "1.0.1") (build_html c7orig c7trans),
            Event.page (page_title_of "Claude Code" "1.0.1")
              (build_html (strip_changelog_section c7orig)
                (if c7trans ≠ "" then strip_changelog_section c7trans else ""))]) :=
  ⟨⟨by decide, by decide⟩,
    (C7_telegraph_retry tooBigThenOkEnv "Claude Code" c7orig c7trans "1.0.1" []).2
      ⟨by decide, by decide⟩⟩

/-! ## The dispatch policy (claims C1–C4): guard lemmas -/

theorem build_is_single_oversized_eq (v o t ti u : String) :
    (build_bilingual_messages v o t ti u).is_single_oversized =
      (decide (MAX_MESSAGE_LENGTH < (build_bilingual_messages v o t ti u).en_length) ||
        decide (MAX_MESSAGE_LENGTH < (build_bilingual_messages v o t ti u).cn_length)) := rfl

theorem build_is_oversized_eq (v o t ti u : String) :
    (build_bilingual_messages v o t ti u).is_oversized =
      decide (MAX_MESSAGE_LENGTH < (build_bilingual_messages v o t ti u).combined_length) := rfl

theorem is_single_oversized_false (v o t ti u : String)
    (hen : (build_bilingual_messages v o t ti u).en_length ≤ MAX_MESSAGE_LENGTH)
    (hcn : (build_bilingual_messages v o t ti u).cn_length ≤ MAX_MESSAGE_LENGTH) :
    (build_bilingual_messages v o t ti u).is_single_oversized = false := by
  rw [build_is_single_oversized_eq]
  simp only [Bool.or_eq_false_iff, decide_eq_false_iff_not, not_lt]
  exact ⟨hen, hcn⟩

/-- C1 (amended): when the escaped combined message fits in the limit and
neither escaped single-language message exceeds it,
`send_bilingual_notification` performs exactly one send call, whose message
is the combined message, and no Telegraph publish. -/
theorem C1_combined_dispatch (env : Env)
    (version original translated title versionUrl : String) (tr : Trace)
    (hco : (build_bilingual_messages version original translated title versionUrl).combined_length ≤
      MAX_MESSAGE_LENGTH)
    (hen : (build_bilingual_messages version original translated title versionUrl).en_length ≤
      MAX_MESSAGE_LENGTH)
    (hcn : (build_bilingual_messages version original translated title versionUrl).cn_length ≤
      MAX_MESSAGE_LENGTH) :
    (send_bilingual_notification env version original translated title versionUrl tr).2 =
      tr ++ [Event.send
        (build_bilingual_messages version original translated title versionUrl).combined_message] ∧
    (send_bilingual_notification env version original translated title versionUrl tr).1.telegraph_url =
      none := by
  have hs := is_single_oversized_false version original translated title versionUrl hen hcn
  have ho : (build_bilingual_messages version original translated title versionUrl).is_oversized =
      false := by
    rw [build_is_oversized_eq]
    simp only [decide_eq_false_iff_not, not_lt]
    exact hco
  simp [send_bilingual_notification, send_telegram_message, hs, ho]

/-- C2: when the escaped combined message exceeds the limit but both escaped
single-language messages fit, `send_bilingual_notification` performs exactly
two send calls — the English message strictly before the Chinese one — and
no Telegraph publish. -/
theorem C2_split_dispatch (env : Env)
    (version original translated title versionUrl : String) (tr : Trace)
    (hco : MAX_MESSAGE_LENGTH <
      (build_bilingual_messages version original translated title versionUrl).combined_length)
    (hen : (build_bilingual_messages version original translated title versionUrl).en_length ≤
      MAX_MESSAGE_LENGTH)
    (hcn : (build_bilingual_messages version original translated title versionUrl).cn_length ≤
      MAX_MESSAGE_LENGTH) :
    (send_bilingual_notification env version original translated title versionUrl tr).2 =
      tr ++ [Event.send
          (build_bilingual_messages version original translated title versionUrl).en_message,
        Event.send
          (build_bilingual_messages version original translated title versionUrl).cn_message] ∧
    (send_bilingual_notification env version original translated title versionUrl tr).1.telegraph_url =
      none := by
  have hs := is_single_oversized_false version original translated title versionUrl hen hcn
  have ho : (build_bilingual_messages version original translated title versionUrl).is_oversized =
      true := by
    rw [build_is_oversized_eq]
    exact decide_eq_true hco
  simp [send_bilingual_notification, send_telegram_message, hs, ho]

/-! ## Claim C3: the Telegraph fallback branch -/

theorem leadsWith_append (pat r : List Char) : leadsWith pat (pat ++ r) = true := by
  induction pat with
  | nil => rfl
  | cons p ps ih => simp [leadsWith, ih]

/-- A pattern occurring literally in a list is found by `containsSub`. -/
theorem containsSub_sandwich (pat l r : List Char) :
    containsSub pat (l ++ (pat ++ r)) = true := by
  induction l with
  | nil =>
    cases pat with
    | nil => cases r <;> simp [containsSub, leadsWith]
    | cons p ps => simp [containsSub, leadsWith, leadsWith_append]
  | cons x l ih => simp [containsSub, ih]

/-- Case analysis on the first createPage outcome inside
`publish_changelog` (shared by several claims). -/
theorem publish_changelog_cases (env : Env) (title original translated version : String)
    (tr : Trace) :
    ((env.pageResult (countPages tr)).success = true ∨
        (env.pageResult (countPages tr)).error ≠ some "CONTENT_TOO_BIG" →
      publish_changelog env title original translated version tr =
        (env.pageResult (countPages tr),
          tr ++ [Event.page (page_title_of title version) (build_html original translated)])) ∧
    ((env.pageResult (countPages tr)).success = false ∧
        (env.pageResult (countPages tr)).error = some "CONTENT_TOO_BIG" →
      publish_changelog env title original translated version tr =
        (env.pageResult (countPages tr + 1),
          tr ++ [Event.page (page_title_of title version) (build_html original translated),
            Event.page (page_title_of title version)
              (build_html (strip_changelog_section original)
                (if translated ≠ "" then strip_changelog_section translated else ""))])) := by
  constructor
  · intro h
    have hg : ((env.pageResult (countPages tr)).success ||
        ((env.pageResult (countPages tr)).error != some "CONTENT_TOO_BIG")) = true := by
      rcases h with h | h
      · simp [h]
      · simp [bne_iff_ne, h]
    simp [publish_changelog, create_page, hg]
  · rintro ⟨h1, h2⟩
    have hg : ((env.pageResult (countPages tr)).success ||
        ((env.pageResult (countPages tr)).error != some "CONTENT_TOO_BIG")) = false := by
      simp [h1, h2]
    simp [publish_changelog, create_page, hg, countPages]

/-- The Telegraph branch of `send_bilingual_notification` when the publish
succeeded: one short message is sent after the publish trace. -/
theorem send_bilingual_telegraph_success (env : Env)
    (version original translated title versionUrl : String) (tr : Trace)
    (pr : PageResult) (tr1 : Trace)
    (hs : (build_bilingual_messages version original translated title versionUrl).is_single_oversized =
      true)
    (hpub : publish_changelog env title original translated version tr = (pr, tr1))
    (hok : pr.success = true) :
    send_bilingual_notification env version original translated title versionUrl tr =
      ({ success := (env.sendResult (countSends tr1)).success
         message_ids := truthyIds (env.sendResult (countSends tr1)).message_id
         telegraph_url := pr.url },
        tr1 ++ [Event.send
          (shortMessageEn
            (build_bilingual_messages version original translated title versionUrl).en_title
            pr.url)]) := by
  simp [send_bilingual_notification, send_telegram_message, hs, hpub, hok]

/-- The Telegraph branch of `send_bilingual_notification` when the publish
failed: nothing is sent. -/
theorem send_bilingual_telegraph_fail (env : Env)
    (version original translated title versionUrl : String) (tr : Trace)
    (pr : PageResult) (tr1 : Trace)
    (hs : (build_bilingual_messages version original translated title versionUrl).is_single_oversized =
      true)
    (hpub : publish_changelog env title original translated version tr = (pr, tr1))
    (hfail : pr.success = false) :
    send_bilingual_notification env version original translated title versionUrl tr =
      ({ success := false, message_ids := [], telegraph_url := none }, tr1) := by
  simp [send_bilingual_notification, hs, hpub, hfail]

/-- C3: when either escaped single-language message exceeds the limit,
`send_bilingual_notification` invokes the Telegraph publish exactly once —
with exactly one additional retry when the first attempt is rejected as
`CONTENT_TOO_BIG` — and whenever the result carries a Telegraph URL, the
run sends exactly one Telegram message, namely the short message whose text
contains that URL. -/
theorem C3_telegraph_fallback (env : Env)
    (version original translated title versionUrl : String) (tr : Trace)
    (hover : MAX_MESSAGE_LENGTH <
        (build_bilingual_messages version original translated title versionUrl).en_length ∨
      MAX_MESSAGE_LENGTH <
        (build_bilingual_messages version original translated title versionUrl).cn_length) :
    (countPages (send_bilingual_notification env version original translated title versionUrl tr).2 =
        countPages tr + 1 ∨
      (countPages (send_bilingual_notification env version original translated title versionUrl tr).2 =
          countPages tr + 2 ∧
        (env.pageResult (countPages tr)).success = false ∧
        (env.pageResult (countPages tr)).error = some "CONTENT_TOO_BIG")) ∧
    (∀ u, (send_bilingual_notification env version original translated title versionUrl tr).1.telegraph_url =
        some u →
      sendsOf (send_bilingual_notification env version original translated title versionUrl tr).2 =
          sendsOf tr ++
            [shortMessageEn
              (build_bilingual_messages version original translated title versionUrl).en_title
              (some u)] ∧
      containsSub u.data
        (shortMessageEn
          (build_bilingual_messages version original translated title versionUrl).en_title
          (some u)).data = true) := by
  have hs : (build_bilingual_messages version original translated title versionUrl).is_single_oversized =
      true := by
    rw [build_is_single_oversized_eq]
    rcases hover with h | h
    · simp [decide_eq_true h]
    · simp [decide_eq_true h]
  have hcontain : ∀ u : String, containsSub u.data
      (shortMessageEn
        (build_bilingual_messages version original translated title versionUrl).en_title
        (some u)).data = true := by
    intro u
    show containsSub u.data
      ((build_bilingual_messages version original translated title versionUrl).en_title ++
        "\n\n[View Full Changelog | 查看完整更新日志](" ++ u ++ ")").data = true
    simp only [String.data_append, List.append_assoc]
    rw [← List.append_assoc
      (build_bilingual_messages version original translated title versionUrl).en_title.data]
    exact containsSub_sandwich u.data _ _
  by_cases hsucc : (env.pageResult (countPages tr)).success = true
  · -- first attempt succeeded
    have hpub := (publish_changelog_cases env title original translated version tr).1
      (Or.inl hsucc)
    have hres := send_bilingual_telegraph_success env version original translated title
      versionUrl tr _ _ hs hpub hsucc
    constructor
    · left
      rw [hres]
      simp [countPages]
    · intro u hu
      rw [hres] at hu ⊢
      simp only at hu
      rw [hu]
      simp [sendsOf, hcontain u]
  · rw [Bool.not_eq_true] at hsucc
    by_cases herr : (env.pageResult (countPages tr)).error = some "CONTENT_TOO_BIG"
    · -- first attempt rejected as too large: retry happens
      have hpub := (publish_changelog_cases env title original translated version tr).2
        ⟨hsucc, herr⟩
      by_cases h2 : (env.pageResult (countPages tr + 1)).success = true
      · have hres := send_bilingual_telegraph_success env version original translated title
          versionUrl tr _ _ hs hpub h2
        constructor
        · right
          rw [hres]
          simp [countPages, hsucc, herr]
        · intro u hu
          rw [hres] at hu ⊢
          simp only at hu
          rw [hu]
          simp [sendsOf, hcontain u]
      · rw [Bool.not_eq_true] at h2
        have hres := send_bilingual_telegraph_fail env version original translated title
          versionUrl tr _ _ hs hpub h2
        constructor
        · right
          rw [hres]
          simp [countPages, hsucc, herr]
        · intro u hu
          rw [hres] at hu
          simp at hu
    · -- first attempt failed with a different error: no retry, no send
      have hpub := (publish_changelog_cases env title original translated version tr).1
        (Or.inr herr)
      have hres := send_bilingual_telegraph_fail env version original translated title
        versionUrl tr _ _ hs hpub hsucc
      constructor
      · left
        rw [hres]
        simp [countPages]
      · intro u hu
        rw [hres] at hu
        simp at hu

/-! ## Claim C4: editing a single message whose new content outgrew the limit -/

/-- C4: for a tracked state with exactly one message id, when the new
escaped combined message exceeds the limit while neither single-language
message does, `edit_bilingual_notification` edits the existing message to
hold the English message, sends one new message holding the Chinese
message, and (when the edit succeeds and the send yields a message id)
returns the id list `[old, new]` of length 2. -/
theorem C4_edit_grow (env : Env) (mid nid : Nat)
    (version original translated title versionUrl : String) (tr : Trace)
    (hco : MAX_MESSAGE_LENGTH <
      (build_bilingual_messages version original translated title versionUrl).combined_length)
    (hen : (build_bilingual_messages version original translated title versionUrl).en_length ≤
      MAX_MESSAGE_LENGTH)
    (hcn : (build_bilingual_messages version original translated title versionUrl).cn_length ≤
      MAX_MESSAGE_LENGTH)
    (hedit : (env.editResult (countEdits tr)).success = true)
    (hsend : (env.sendResult (countSends tr)).message_id = some nid)
    (hnz : nid ≠ 0) :
    (edit_bilingual_notification env [mid] version original translated title versionUrl tr).2 =
      tr ++ [Event.edit mid
          (build_bilingual_messages version original translated title versionUrl).en_message,
        Event.send
          (build_bilingual_messages version original translated title versionUrl).cn_message] ∧
    (edit_bilingual_notification env [mid] version original translated title versionUrl tr).1.message_ids =
      [mid, nid] := by
  have hs := is_single_oversized_false version original translated title versionUrl hen hcn
  have ho : (build_bilingual_messages version original translated title versionUrl).is_oversized =
      true := by
    rw [build_is_oversized_eq]
    exact decide_eq_true hco
  simp [edit_bilingual_notification, edit_telegram_message, send_telegram_message, hs, ho,
    hedit, hsend, truthyIds, hnz, countSends, countEdits]

/-! ## Benign-character lemmas for the text pipeline

These compute the pipeline on strings whose characters trigger none of the
regular-expression patterns, which is what the large witness inputs are
made of (runs of a repeated letter, with at most an interior blank line). -/

theorem escapeCharL_of_not_mem {c : Char} (h : c ∉ escapeChars) : escapeCharL c = [c] := by
  simp [escapeCharL, h]

theorem escapeMarkdownL_append (xs ys : List Char) :
    escapeMarkdownL (xs ++ ys) = escapeMarkdownL xs ++ escapeMarkdownL ys := by
  induction xs with
  | nil => simp [escapeMarkdownL]
  | cons c cs ih => simp [escapeMarkdownL, ih]

theorem escapeMarkdownL_id {cs : List Char} (h : ∀ c ∈ cs, c ∉ escapeChars) :
    escapeMarkdownL cs = cs := by
  induction cs with
  | nil => rfl
  | cons c cs ih =>
    rw [escapeMarkdownL, escapeCharL_of_not_mem (h c (by simp)),
      ih (fun d hd => h d (by simp [hd]))]
    rfl

theorem escapeMarkdownL_length_replicate (c : Char) (n : Nat) :
    (escapeMarkdownL (List.replicate n c)).length = n * (escapeCharL c).length := by
  induction n with
  | zero => simp [escapeMarkdownL]
  | succ m ih =>
    rw [List.replicate_succ, escapeMarkdownL, List.length_append, ih]
    ring

theorem takeWhile_all {p : Char → Bool} {cs : List Char} (h : ∀ c ∈ cs, p c = true) :
    cs.takeWhile p = cs := by
  induction cs with
  | nil => rfl
  | cons c cs ih =>
    simp [List.takeWhile_cons, h c (by simp), ih (fun d hd => h d (by simp [hd]))]

theorem dropWhile_all {p : Char → Bool} {cs : List Char} (h : ∀ c ∈ cs, p c = true) :
    cs.dropWhile p = [] := by
  induction cs with
  | nil => rfl
  | cons c cs ih =>
    rw [List.dropWhile_cons, h c (by simp)]
    exact if_pos rfl ▸ ih (fun d hd => h d (by simp [hd]))

theorem takeWhile_append_all {p : Char → Bool} {xs : List Char} (ys : List Char)
    (h : ∀ c ∈ xs, p c = true) :
    (xs ++ ys).takeWhile p = xs ++ ys.takeWhile p := by
  induction xs with
  | nil => rfl
  | cons c cs ih =>
    rw [List.cons_append, List.takeWhile_cons, h c (by simp),
      ih (fun d hd => h d (by simp [hd]))]
    rfl

theorem dropWhile_append_all {p : Char → Bool} {xs : List Char} (ys : List Char)
    (h : ∀ c ∈ xs, p c = true) :
    (xs ++ ys).dropWhile p = ys.dropWhile p := by
  induction xs with
  | nil => rfl
  | cons c cs ih =>
    rw [List.cons_append, List.dropWhile_cons, h c (by simp)]
    exact if_pos rfl ▸ ih (fun d hd => h d (by simp [hd]))

theorem extractLinksAux_id {cs : List Char} (h : ∀ c ∈ cs, c ≠ '[') :
    ∀ fuel links, extractLinksAux fuel cs links = (cs, links) := by
  induction cs with
  | nil => intro fuel links; cases fuel <;> rfl
  | cons c cs ih =>
    intro fuel links
    cases fuel with
    | zero => rfl
    | succ f =>
      have hc : (c == '[') = false := by
        simp only [beq_eq_false_iff_ne]
        exact h c (by simp)
      simp [extractLinksAux, hc, ih (fun d hd => h d (by simp [hd]))]

theorem extractCodesAux_id {cs : List Char} (h : ∀ c ∈ cs, c ≠ '`') :
    ∀ fuel codes, extractCodesAux fuel cs codes = (cs, codes) := by
  induction cs with
  | nil => intro fuel codes; cases fuel <;> rfl
  | cons c cs ih =>
    intro fuel codes
    cases fuel with
    | zero => rfl
    | succ f =>
      have hc : (c == '`') = false := by
        simp only [beq_eq_false_iff_ne]
        exact h c (by simp)
      simp [extractCodesAux, hc, ih (fun d hd => h d (by simp [hd]))]

theorem processBoldAux_no_star {cs : List Char} (h : ∀ c ∈ cs, c ≠ '*') :
    ∀ fuel, processBoldAux fuel cs = escapeMarkdownL cs := by
  induction cs with
  | nil => intro fuel; cases fuel <;> rfl
  | cons c cs ih =>
    intro fuel
    cases fuel with
    | zero => rfl
    | succ f =>
      have hc : (c == '*') = false := by
        simp only [beq_eq_false_iff_ne]
        exact h c (by simp)
      rw [processBoldAux, if_neg (by simp [hc]), ih (fun d hd => h d (by simp [hd]))]
      rfl

theorem stripHeadersAux_id {cs : List Char} (h : ∀ c ∈ cs, c ≠ '#') :
    ∀ fuel b, stripHeadersAux fuel b cs = cs := by
  induction cs with
  | nil => intro fuel b; cases fuel <;> rfl
  | cons c cs ih =>
    intro fuel b
    cases fuel with
    | zero => rfl
    | succ f =>
      have hc : (c == '#') = false := by
        simp only [beq_eq_false_iff_ne]
        exact h c (by simp)
      simp [stripHeadersAux, hc, ih (fun d hd => h d (by simp [hd]))]

theorem tryVersionNum_none {c : Char} {cs : List Char} (h : pyIsDigitB c = false) :
    tryVersionNum (c :: cs) = none := by
  simp [tryVersionNum, List.span_eq_take_drop, List.takeWhile_cons, h]

theorem stripVersionLinesAux_id {cs : List Char} (h : ∀ c ∈ cs, pyIsDigitB c = false) :
    ∀ fuel b, stripVersionLinesAux fuel b cs = cs := by
  induction cs with
  | nil => intro fuel b; cases fuel <;> rfl
  | cons c cs ih =>
    intro fuel b
    cases fuel with
    | zero => rfl
    | succ f =>
      have hc := @tryVersionNum_none c cs (h c (by simp))
      cases b <;>
        simp [stripVersionLinesAux, hc, ih (fun d hd => h d (by simp [hd]))]

theorem bulletAux_id {cs : List Char} (h : ∀ c ∈ cs, c ≠ '-') :
    ∀ fuel b, bulletAux fuel b cs = cs := by
  induction cs with
  | nil => intro fuel b; cases fuel <;> rfl
  | cons c cs ih =>
    intro fuel b
    cases fuel with
    | zero => rfl
    | succ f =>
      have hc : (c == '-') = false := by
        simp only [beq_eq_false_iff_ne]
        exact h c (by simp)
      simp [bulletAux, hc, ih (fun d hd => h d (by simp [hd]))]

theorem collapseNewlinesAux_id {cs : List Char} (h : ∀ c ∈ cs, c ≠ '\n') :
    ∀ fuel, collapseNewlinesAux fuel cs = cs := by
  induction cs with
  | nil => intro fuel; cases fuel <;> rfl
  | cons c cs ih =>
    intro fuel
    cases fuel with
    | zero => rfl
    | succ f =>
      have hc : (c == '\n') = false := by
        simp only [beq_eq_false_iff_ne]
        exact h c (by simp)
      simp [collapseNewlinesAux, hc, ih (fun d hd => h d (by simp [hd]))]

theorem dropWhileB_id {p : Char → Bool} {cs : List Char} (h : ∀ c ∈ cs, p c = false) :
    dropWhileB p cs = cs := by
  cases cs with
  | nil => rfl
  | cons c cs => simp [dropWhileB, h c (by simp)]

theorem pyStripL_id {cs : List Char} (h : ∀ c ∈ cs, pyIsSpaceB c = false) :
    pyStripL cs = cs := by
  have hrev : ∀ c ∈ cs.reverse, pyIsSpaceB c = false := by
    intro c hc
    exact h c (List.mem_reverse.mp hc)
  rw [pyStripL, dropWhileB_id hrev, List.reverse_reverse, dropWhileB_id h]

theorem replaceAllAux_absent {q : Char} {qs cs : List Char} (repl : List Char)
    (h : ∀ c ∈ cs, c ≠ q) :
    ∀ fuel, replaceAllAux fuel (q :: qs) repl cs = cs := by
  induction cs with
  | nil => intro fuel; cases fuel <;> rfl
  | cons c cs ih =>
    intro fuel
    cases fuel with
    | zero => rfl
    | succ f =>
      have hc : leadsWith (q :: qs) (c :: cs) = false := by
        have : (q == c) = false := by
          simp only [beq_eq_false_iff_ne]
          exact fun e => h c (by simp) e.symm
        simp [leadsWith, this]
      simp [replaceAllAux, hc, ih (fun d hd => h d (by simp [hd]))]

theorem replaceAllL_absent {q : Char} {qs cs : List Char} (repl : List Char)
    (h : ∀ c ∈ cs, c ≠ q) :
    replaceAllL (q :: qs) repl cs = cs := by
  simp [replaceAllL, replaceAllAux_absent repl h]

/-- `clean_for_telegram` is the identity on a string whose characters are
hash-free, digit-free, dash-free, newline-free and whitespace-free. -/
theorem clean_for_telegram_id (s : String)
    (h1 : ∀ c ∈ s.data, c ≠ '#') (h2 : ∀ c ∈ s.data, pyIsDigitB c = false)
    (h3 : ∀ c ∈ s.data, c ≠ '-') (h4 : ∀ c ∈ s.data, c ≠ '\n')
    (h5 : ∀ c ∈ s.data, pyIsSpaceB c = false) :
    clean_for_telegram s true = s := by
  rw [clean_for_telegram]
  rw [stripHeadersAux_id h1, if_pos rfl, stripVersionLinesAux_id h2, bulletAux_id h3,
    collapseNewlinesAux_id h4, pyStripL_id h5]

/-- `process_message_for_markdown_v2` is the identity on a string without
link openers, backticks, stars or escapable characters. -/
theorem process_plain (s : String)
    (hL : ∀ c ∈ s.data, c ≠ '[') (hC : ∀ c ∈ s.data, c ≠ '`')
    (hS : ∀ c ∈ s.data, c ≠ '*') (hE : ∀ c ∈ s.data, c ∉ escapeChars) :
    process_message_for_markdown_v2 s = s := by
  rw [process_message_for_markdown_v2]
  simp only [extractLinksAux_id hL]
  simp only [extractCodesAux_id hC]
  simp only [processBoldAux_no_star hS]
  rw [escapeMarkdownL_id hE]
  rfl

/-! ## Computing `_build_bilingual_messages` on the witness inputs -/

theorem mk_data (s : String) : (⟨s.data⟩ : String) = s := rfl

theorem forall_mem_replicate (P : Char → Prop) {c : Char} (h : P c) (n : Nat) :
    ∀ d ∈ List.replicate n c, P d :=
  fun _ hd => (List.eq_of_mem_replicate hd) ▸ h

theorem build_en_length_eq (v o t ti u : String) :
    (build_bilingual_messages v o t ti u).en_length =
      (process_message_for_markdown_v2 (build_bilingual_messages v o t ti u).en_message).length :=
  rfl

theorem build_cn_length_eq (v o t ti u : String) :
    (build_bilingual_messages v o t ti u).cn_length =
      (process_message_for_markdown_v2 (build_bilingual_messages v o t ti u).cn_message).length :=
  rfl

theorem build_combined_length_eq (v o t ti u : String) :
    (build_bilingual_messages v o t ti u).combined_length =
      (process_message_for_markdown_v2
        (build_bilingual_messages v o t ti u).combined_message).length :=
  rfl

/-- The messages built from a nonempty translation with an empty title and
no version url, when cleaning and the `链接:` replacement do not change the
texts: the English message is the original, the Chinese message is the
translation, and the combined message joins them with a blank line. -/
theorem build_no_title_fields (v o t : String) (ht : ¬(t = ""))
    (hco : clean_for_telegram o true = o)
    (hct : clean_for_telegram t true = t)
    (hro : replaceAllL "链接:".data "Source:".data o.data = o.data) :
    (build_bilingual_messages v o t "" "").en_message = o ∧
    (build_bilingual_messages v o t "" "").cn_message = t ∧
    (build_bilingual_messages v o t "" "").combined_message =
      ⟨o.data ++ '\n' :: '\n' :: t.data⟩ := by
  have horig : (⟨replaceAllL "链接:".data "Source:".data
      (clean_for_telegram o true).data⟩ : String) = o := by
    rw [hco, hro]
  refine ⟨?_, ?_, ?_⟩
  · simp only [build_bilingual_messages]
    simp only [ne_eq, not_true_eq_false, if_false, horig]
    rfl
  · simp only [build_bilingual_messages]
    simp only [ne_eq, not_true_eq_false, if_false, ht, not_false_eq_true, if_true, hct, joinNl]
  · simp only [build_bilingual_messages]
    simp only [ne_eq, not_true_eq_false, if_false, ht, not_false_eq_true, if_true, hct, horig]
    apply String.ext
    simp [joinNl, String.data_append]

/-- Like `build_no_title_fields`, with an absent translation: the combined
message is just the original and the Chinese message is the
no-translation marker. -/
theorem build_no_trans_fields (v o : String)
    (hco : clean_for_telegram o true = o)
    (hro : replaceAllL "链接:".data "Source:".data o.data = o.data) :
    (build_bilingual_messages v o "" "" "").en_message = o ∧
    (build_bilingual_messages v o "" "" "").cn_message = "（无翻译）" ∧
    (build_bilingual_messages v o "" "" "").combined_message = o := by
  have horig : (⟨replaceAllL "链接:".data "Source:".data
      (clean_for_telegram o true).data⟩ : String) = o := by
    rw [hco, hro]
  refine ⟨?_, ?_, ?_⟩
  · simp only [build_bilingual_messages]
    simp only [ne_eq, not_true_eq_false, if_false, horig]
    rfl
  · simp only [build_bilingual_messages]
    simp only [ne_eq, not_true_eq_false, if_false]
    rfl
  · simp only [build_bilingual_messages]
    simp only [ne_eq, not_true_eq_false, if_false, horig]
    rfl

/-! ## Lengths of the witness messages -/

theorem replicate_string_ne_empty (c : Char) (n : Nat) (h : n ≠ 0) :
    (⟨List.replicate n c⟩ : String) ≠ "" := by
  intro e
  have h2 : (⟨List.replicate n c⟩ : String).data.length = ("" : String).data.length :=
    congrArg (fun s => s.data.length) e
  have h3 : ("" : String).data = [] := rfl
  simp [h3] at h2
  exact h h2

theorem replicate_clean (c : Char) (n : Nat)
    (h1 : c ≠ '#') (h2 : pyIsDigitB c = false) (h3 : c ≠ '-') (h4 : c ≠ '\n')
    (h5 : pyIsSpaceB c = false) :
    clean_for_telegram ⟨List.replicate n c⟩ true = ⟨List.replicate n c⟩ :=
  clean_for_telegram_id _ (forall_mem_replicate (fun d => d ≠ '#') h1 n)
    (forall_mem_replicate (fun d => pyIsDigitB d = false) h2 n)
    (forall_mem_replicate (fun d => d ≠ '-') h3 n)
    (forall_mem_replicate (fun d => d ≠ '\n') h4 n)
    (forall_mem_replicate (fun d => pyIsSpaceB d = false) h5 n)

theorem replicate_process (c : Char) (n : Nat)
    (h1 : c ≠ '[') (h2 : c ≠ '`') (h3 : c ≠ '*') (h4 : c ∉ escapeChars) :
    process_message_for_markdown_v2 ⟨List.replicate n c⟩ = ⟨List.replicate n c⟩ :=
  process_plain _ (forall_mem_replicate (fun d => d ≠ '[') h1 n)
    (forall_mem_replicate (fun d => d ≠ '`') h2 n)
    (forall_mem_replicate (fun d => d ≠ '*') h3 n)
    (forall_mem_replicate (fun d => d ∉ escapeChars) h4 n)

theorem replicate_source_replace (c : Char) (n : Nat) (h : c ≠ '链') :
    replaceAllL "链接:".data "Source:".data (List.replicate n c) = List.replicate n c := by
  have hd : "链接:".data = '链' :: '接' :: ':' :: [] := rfl
  rw [hd]
  exact replaceAllL_absent _ (forall_mem_replicate (fun d => d ≠ '链') h n)

theorem forall_mem_combo (P : Char → Prop) {x y : Char} {n m : Nat}
    (hx : P x) (hn : P '\n') (hy : P y) :
    ∀ c ∈ (List.replicate n x ++ '\n' :: '\n' :: List.replicate m y), P c := by
  intro c hc
  rcases List.mem_append.mp hc with h | h
  · exact (List.eq_of_mem_replicate h) ▸ hx
  · rcases List.mem_cons.mp h with rfl | h
    · exact hn
    · rcases List.mem_cons.mp h with rfl | h
      · exact hn
      · exact (List.eq_of_mem_replicate h) ▸ hy

theorem w3000_fields :
    (build_bilingual_messages "1" aRun3000 bRun3000 "" "").en_message = aRun3000 ∧
    (build_bilingual_messages "1" aRun3000 bRun3000 "" "").cn_message = bRun3000 ∧
    (build_bilingual_messages "1" aRun3000 bRun3000 "" "").combined_message =
      ⟨aRun3000.data ++ '\n' :: '\n' :: bRun3000.data⟩ :=
  build_no_title_fields "1" aRun3000 bRun3000
    (replicate_string_ne_empty 'b' 3000 (by omega))
    (replicate_clean 'a' 3000 (by decide) (by decide) (by decide) (by decide) (by decide))
    (replicate_clean 'b' 3000 (by decide) (by decide) (by decide) (by decide) (by decide))
    (replicate_source_replace 'a' 3000 (by decide))

theorem w3000_en_length :
    (build_bilingual_messages "1" aRun3000 bRun3000 "" "").en_length = 3000 := by
  rw [build_en_length_eq, w3000_fields.1]
  rw [show aRun3000 = ⟨List.replicate 3000 'a'⟩ from rfl]
  rw [replicate_process 'a' 3000 (by decide) (by decide) (by decide) (by decide)]
  show (List.replicate 3000 'a').length = 3000
  exact List.length_replicate 3000 'a' 

theorem w3000_cn_length :
    (build_bilingual_messages "1" aRun3000 bRun3000 "" "").cn_length = 3000 := by
  rw [build_cn_length_eq, w3000_fields.2.1]
  rw [show bRun3000 = ⟨List.replicate 3000 'b'⟩ from rfl]
  rw [replicate_process 'b' 3000 (by decide) (by decide) (by decide) (by decide)]
  show (List.replicate 3000 'b').length = 3000
  exact List.length_replicate 3000 'b' 

theorem w3000_combined_length :
    (build_bilingual_messages "1" aRun3000 bRun3000 "" "").combined_length = 6002 := by
  rw [build_combined_length_eq, w3000_fields.2.2]
  rw [show (⟨aRun3000.data ++ '\n' :: '\n' :: bRun3000.data⟩ : String) =
    ⟨List.replicate 3000 'a' ++ '\n' :: '\n' :: List.replicate 3000 'b'⟩ from rfl]
  rw [process_plain ⟨List.replicate 3000 'a' ++ '\n' :: '\n' :: List.replicate 3000 'b'⟩
    (forall_mem_combo (fun d => d ≠ '[') (by decide) (by decide) (by decide))
    (forall_mem_combo (fun d => d ≠ '`') (by decide) (by decide) (by decide))
    (forall_mem_combo (fun d => d ≠ '*') (by decide) (by decide) (by decide))
    (forall_mem_combo (fun d => d ∉ escapeChars) (by decide) (by decide) (by decide))]
  show (List.replicate 3000 'a' ++ '\n' :: '\n' :: List.replicate 3000 'b').length = 6002
  rw [List.length_append, List.length_cons, List.length_cons, List.length_replicate,
    List.length_replicate]

theorem w4200_fields :
    (build_bilingual_messages "1" aRun4200 "" "" "").en_message = aRun4200 ∧
    (build_bilingual_messages "1" aRun4200 "" "" "").cn_message = "（无翻译）" ∧
    (build_bilingual_messages "1" aRun4200 "" "" "").combined_message = aRun4200 :=
  build_no_trans_fields "1" aRun4200
    (replicate_clean 'a' 4200 (by decide) (by decide) (by decide) (by decide) (by decide))
    (replicate_source_replace 'a' 4200 (by decide))

theorem w4200_en_length :
    (build_bilingual_messages "1" aRun4200 "" "" "").en_length = 4200 := by
  rw [build_en_length_eq, w4200_fields.1]
  rw [show aRun4200 = ⟨List.replicate 4200 'a'⟩ from rfl]
  rw [replicate_process 'a' 4200 (by decide) (by decide) (by decide) (by decide)]
  show (List.replicate 4200 'a').length = 4200
  exact List.length_replicate 4200 'a' 

/-! ## Witnesses for claims C1 (amended), C2, C3 and C4 -/

set_option maxRecDepth 100000 in
/-- Witness for the amended C1: a small bilingual release note is dispatched
as a single combined message with no Telegraph publish. -/
theorem C1_combined_dispatch_witness :
    (build_bilingual_messages "1.0.0" "Hello" "你好" "Claude Code" "").combined_length ≤
      MAX_MESSAGE_LENGTH ∧
    (build_bilingual_messages "1.0.0" "Hello" "你好" "Claude Code" "").en_length ≤
      MAX_MESSAGE_LENGTH ∧
    (build_bilingual_messages "1.0.0" "Hello" "你好" "Claude Code" "").cn_length ≤
      MAX_MESSAGE_LENGTH ∧
    ((send_bilingual_notification allOkEnv "1.0.0" "Hello" "你好" "Claude Code" "" []).2 =
        [] ++ [Event.send
          (build_bilingual_messages "1.0.0" "Hello" "你好" "Claude Code" "").combined_message] ∧
      (send_bilingual_notification allOkEnv "1.0.0" "Hello" "你好" "Claude Code" "" []).1.telegraph_url =
        none) :=
  ⟨by decide, by decide, by decide,
    C1_combined_dispatch allOkEnv "1.0.0" "Hello" "你好" "Claude Code" "" []
      (by decide) (by decide) (by decide)⟩

/-- Witness for C2: two 3000-letter bodies overflow the combined message but
fit singly, so exactly two sends happen, English first. -/
theorem C2_split_dispatch_witness :
    MAX_MESSAGE_LENGTH <
      (build_bilingual_messages "1" aRun3000 bRun3000 "" "").combined_length ∧
    (build_bilingual_messages "1" aRun3000 bRun3000 "" "").en_length ≤ MAX_MESSAGE_LENGTH ∧
    (build_bilingual_messages "1" aRun3000 bRun3000 "" "").cn_length ≤ MAX_MESSAGE_LENGTH ∧
    ((send_bilingual_notification allOkEnv "1" aRun3000 bRun3000 "" "" []).2 =
        [] ++ [Event.send (build_bilingual_messages "1" aRun3000 bRun3000 "" "").en_message,
          Event.send (build_bilingual_messages "1" aRun3000 bRun3000 "" "").cn_message] ∧
      (send_bilingual_notification allOkEnv "1" aRun3000 bRun3000 "" "" []).1.telegraph_url =
        none) := by
  have h1 : MAX_MESSAGE_LENGTH <
      (build_bilingual_messages "1" aRun3000 bRun3000 "" "").combined_length := by
    rw [w3000_combined_length]; decide
  have h2 : (build_bilingual_messages "1" aRun3000 bRun3000 "" "").en_length ≤
      MAX_MESSAGE_LENGTH := by
    rw [w3000_en_length]; decide
  have h3 : (build_bilingual_messages "1" aRun3000 bRun3000 "" "").cn_length ≤
      MAX_MESSAGE_LENGTH := by
    rw [w3000_cn_length]; decide
  exact ⟨h1, h2, h3, C2_split_dispatch allOkEnv "1" aRun3000 bRun3000 "" "" [] h1 h2 h3⟩

/-- Witness for C3: a 4200-letter body overflows even a single message, so
the content goes to Telegraph (one publish; the oracle accepts it) and the
single message sent is the short one containing the Telegraph URL. -/
theorem C3_telegraph_fallback_witness :
    (MAX_MESSAGE_LENGTH < (build_bilingual_messages "1" aRun4200 "" "" "").en_length ∨
      MAX_MESSAGE_LENGTH < (build_bilingual_messages "1" aRun4200 "" "" "").cn_length) ∧
    ((countPages (send_bilingual_notification allOkEnv "1" aRun4200 "" "" "" []).2 =
        countPages ([] : Trace) + 1 ∨
      (countPages (send_bilingual_notification allOkEnv "1" aRun4200 "" "" "" []).2 =
          countPages ([] : Trace) + 2 ∧
        (allOkEnv.pageResult (countPages ([] : Trace))).success = false ∧
        (allOkEnv.pageResult (countPages ([] : Trace))).error = some "CONTENT_TOO_BIG")) ∧
    (∀ u, (send_bilingual_notification allOkEnv "1" aRun4200 "" "" "" []).1.telegraph_url =
        some u →
      sendsOf (send_bilingual_notification allOkEnv "1" aRun4200 "" "" "" []).2 =
          sendsOf ([] : Trace) ++
            [shortMessageEn (build_bilingual_messages "1" aRun4200 "" "" "").en_title (some u)] ∧
      containsSub u.data
        (shortMessageEn (build_bilingual_messages "1" aRun4200 "" "" "").en_title
          (some u)).data = true)) := by
  have hover : MAX_MESSAGE_LENGTH <
      (build_bilingual_messages "1" aRun4200 "" "" "").en_length ∨
      MAX_MESSAGE_LENGTH < (build_bilingual_messages "1" aRun4200 "" "" "").cn_length := by
    left
    rw [w4200_en_length]; decide
  exact ⟨hover, C3_telegraph_fallback allOkEnv "1" aRun4200 "" "" "" [] hover⟩

/-- Witness for C4: the 3000-letter bodies again, editing a tracked single
message 7; the edit rewrites it to the English message, a new message for
the Chinese one gets id 101, and the returned ids are `[7, 101]`. -/
theorem C4_edit_grow_witness :
    MAX_MESSAGE_LENGTH <
      (build_bilingual_messages "1" aRun3000 bRun3000 "" "").combined_length ∧
    (build_bilingual_messages "1" aRun3000 bRun3000 "" "").en_length ≤ MAX_MESSAGE_LENGTH ∧
    (build_bilingual_messages "1" aRun3000 bRun3000 "" "").cn_length ≤ MAX_MESSAGE_LENGTH ∧
    (allOkEnv.editResult (countEdits ([] : Trace))).success = true ∧
    (allOkEnv.sendResult (countSends ([] : Trace))).message_id = some 101 ∧
    ((edit_bilingual_notification allOkEnv [7] "1" aRun3000 bRun3000 "" "" []).2 =
        [] ++ [Event.edit 7 (build_bilingual_messages "1" aRun3000 bRun3000 "" "").en_message,
          Event.send (build_bilingual_messages "1" aRun3000 bRun3000 "" "").cn_message] ∧
      (edit_bilingual_notification allOkEnv [7] "1" aRun3000 bRun3000 "" "" []).1.message_ids =
        [7, 101]) := by
  have h1 : MAX_MESSAGE_LENGTH <
      (build_bilingual_messages "1" aRun3000 bRun3000 "" "").combined_length := by
    rw [w3000_combined_length]; decide
  have h2 : (build_bilingual_messages "1" aRun3000 bRun3000 "" "").en_length ≤
      MAX_MESSAGE_LENGTH := by
    rw [w3000_en_length]; decide
  have h3 : (build_bilingual_messages "1" aRun3000 bRun3000 "" "").cn_length ≤
      MAX_MESSAGE_LENGTH := by
    rw [w3000_cn_length]; decide
  exact ⟨h1, h2, h3, rfl, rfl,
    C4_edit_grow allOkEnv 7 101 "1" aRun3000 bRun3000 "" "" [] h1 h2 h3 rfl rfl (by decide)⟩

/-! ## Claim C9: escaping of overlapping link and code spans -/

set_option maxRecDepth 10000 in
/-- C9 (evaluation at the failing input): on the input `` `[a](b)` `` — an
inline-code span whose content is a hyperlink span — the escaper's own
protect-and-restore scheme breaks: the link is extracted first, its
placeholder is swallowed by the code extraction, and link restoration never
fires, so the internal sentinel `\x00LINK0\x00` leaks into the output.  The
output contains neither the link span in `[text](url)` shape nor the code
span with its content escaped, contradicting the documented behaviour
(preserve hyperlinks and code spans, escape the rest). -/
theorem C9_overlapping_spans_leak :
    process_message_for_markdown_v2 "`[a](b)`" = "`\x00LINK0\x00`" ∧
    containsSub "[a](b)".data (process_message_for_markdown_v2 "`[a](b)`").data = false ∧
    containsSub ("`" ++ escape_markdown "[a](b)" ++ "`").data
      (process_message_for_markdown_v2 "`[a](b)`").data = false :=
  ⟨by decide, by decide, by decide⟩

/-! ## Claim C10: translation quality gate and attempt bound -/

theorem check_translation_quality_spec {t : String}
    (h : check_translation_quality t = true) :
    20 * count_chinese_chars t ≥ t.length := by
  rw [check_translation_quality] at h
  split_ifs at h
  exact of_decide_eq_true h

theorem translateAttempts_spec (env : Env) (content : String) :
    ∀ n tr, ((translateAttempts env content n tr).1 = "" ∨
        20 * count_chinese_chars (translateAttempts env content n tr).1 ≥
          ((translateAttempts env content n tr).1).length) ∧
      countLlm (translateAttempts env content n tr).2 ≤ countLlm tr + n := by
  intro n
  induction n with
  | zero => intro tr; exact ⟨Or.inl rfl, by simp [translateAttempts]⟩
  | succ m ih =>
    intro tr
    have hone : countLlm [Event.llm (translate_prompt content)] = 1 := rfl
    rw [translateAttempts]
    cases hr : env.llmResponse (countLlm tr) with
    | exn =>
      refine ⟨(ih _).1, ?_⟩
      have h2 := (ih (tr ++ [Event.llm (translate_prompt content)])).2
      rw [countLlm_append, hone] at h2
      show countLlm
        (translateAttempts env content m (tr ++ [Event.llm (translate_prompt content)])).2 ≤
        countLlm tr + (m + 1)
      omega
    | emptyChoices =>
      refine ⟨(ih _).1, ?_⟩
      have h2 := (ih (tr ++ [Event.llm (translate_prompt content)])).2
      rw [countLlm_append, hone] at h2
      show countLlm
        (translateAttempts env content m (tr ++ [Event.llm (translate_prompt content)])).2 ≤
        countLlm tr + (m + 1)
      omega
    | content s =>
      dsimp only
      by_cases hq : check_translation_quality (pyStrip s) = true
      · rw [if_pos hq]
        refine ⟨Or.inr (check_translation_quality_spec hq), ?_⟩
        show countLlm (tr ++ [Event.llm (translate_prompt content)]) ≤ countLlm tr + (m + 1)
        rw [countLlm_append, hone]
        omega
      · rw [if_neg hq]
        refine ⟨(ih _).1, ?_⟩
        have h2 := (ih (tr ++ [Event.llm (translate_prompt content)])).2
        rw [countLlm_append, hone] at h2
        show countLlm
          (translateAttempts env content m (tr ++ [Event.llm (translate_prompt content)])).2 ≤
          countLlm tr + (m + 1)
        omega

/-- C10: for every oracle (any sequence of LLM outcomes) and every content,
`translate_changelog` returns either the empty string or a text in which at
least one character in twenty lies in the CJK range U+4E00–U+9FFF (the 5%
quality gate), and it makes at most 3 LLM attempts. -/
theorem C10_translation_quality (env : Env) (content : String) (tr : Trace) :
    ((translate_changelog env content tr).1 = "" ∨
      20 * count_chinese_chars (translate_changelog env content tr).1 ≥
        ((translate_changelog env content tr).1).length) ∧
    countLlm (translate_changelog env content tr).2 ≤ countLlm tr + 3 := by
  rw [translate_changelog]
  by_cases hk : env.apiKey = ""
  · rw [if_pos hk]
    exact ⟨Or.inl rfl, Nat.le_add_right (countLlm tr) 3⟩
  · rw [if_neg hk]
    exact translateAttempts_spec env content 3 tr

/-! ## Claim C6: a repeated run on identical content is silent -/

/-- C6: when the fetched version equals the saved version and the hash of
the fetched content equals the persisted content hash, the run performs no
edit and no send (indeed no outbound call at all), exits 0 and leaves the
files unchanged. -/
theorem C6_idempotent_run (env : Env) (fs : FS) (text v content vf : String)
    (st : MessageState)
    (hfetch : env.fetchedChangelog = some text) (hne : ¬(text = ""))
    (hparse : parse_latest_version text = some (v, content))
    (hvf : fs.versionFile = some vf) (hsv : pyStrip vf = v)
    (hms : fs.messageState = some st) (hstv : st.version = v)
    (hhash : st.body_hash = compute_body_hash env content) :
    checker_main env false none fs = ⟨0, fs, []⟩ := by
  simp [checker_main, hfetch, hne, hparse, hvf, hsv, hms, hstv, hhash,
    read_saved_version, read_message_state]

/-- Witness for C6: a concrete matched state; the run is silent. -/
theorem C6_idempotent_run_witness :
    checkerEnv.fetchedChangelog = some "## 1.0.0\n\n- Old entry" ∧
    ¬(("## 1.0.0\n\n- Old entry" : String) = "") ∧
    parse_latest_version "## 1.0.0\n\n- Old entry" =
      some ("1.0.0", "## 1.0.0\n\n- Old entry") ∧
    fsMatched.versionFile = some "1.0.0" ∧
    pyStrip "1.0.0" = "1.0.0" ∧
    fsMatched.messageState = some ⟨"1.0.0", [9], "H"⟩ ∧
    (⟨"1.0.0", [9], "H"⟩ : MessageState).version = "1.0.0" ∧
    (⟨"1.0.0", [9], "H"⟩ : MessageState).body_hash =
      compute_body_hash checkerEnv "## 1.0.0\n\n- Old entry" ∧
    checker_main checkerEnv false none fsMatched = ⟨0, fsMatched, []⟩ :=
  ⟨rfl, by decide, by decide, rfl, by decide, rfl, rfl, by decide,
    C6_idempotent_run checkerEnv fsMatched "## 1.0.0\n\n- Old entry" "1.0.0"
      "## 1.0.0\n\n- Old entry" "1.0.0" ⟨"1.0.0", [9], "H"⟩
      rfl (by decide) (by decide) rfl (by decide) rfl rfl (by decide)⟩

/-! ## Claim C5: an edit failure clears the tracked state -/

/-- When every Telegram edit fails, `edit_bilingual_notification` reports
failure, whatever branch it takes. -/
theorem edit_bilingual_fail (env : Env) (ids : List Nat)
    (version original translated title versionUrl : String) (tr : Trace)
    (h : ∀ n, (env.editResult n).success = false) :
    (edit_bilingual_notification env ids version original translated title versionUrl tr).1.success =
      false := by
  cases ids with
  | nil => rfl
  | cons mid0 restIds =>
    simp only [edit_bilingual_notification]
    cases hso : (build_bilingual_messages version original translated title versionUrl).is_single_oversized with
    | false =>
      cases restIds with
      | nil =>
        cases hov : (build_bilingual_messages version original translated title versionUrl).is_oversized with
        | false => simp [hso, hov, edit_telegram_message, send_telegram_message, h]
        | true => simp [hso, hov, edit_telegram_message, send_telegram_message, h]
      | cons mid1 more => simp [hso, edit_telegram_message, h]
    | true =>
      rcases hpub : publish_changelog env title original translated version tr with ⟨pr, tr1⟩
      cases hps : pr.success with
      | false => simp [hso, hpub, hps]
      | true => simp [hso, hpub, hps, editShortLoop, edit_telegram_message, h]

/-- C5 (amended): whenever the edit of a previously sent notification fails,
the checker removes the persisted message-state file and exits non-zero; the
next run does not treat the version as unseen — the version file still
records it, so that run performs no outbound call at all and exits 0. -/
theorem C5_edit_failure_clears_state (env : Env) (fs : FS) (text v content vf : String)
    (st : MessageState)
    (hfetch : env.fetchedChangelog = some text) (hne : ¬(text = ""))
    (hparse : parse_latest_version text = some (v, content))
    (hvf : fs.versionFile = some vf) (hsv : pyStrip vf = v)
    (hms : fs.messageState = some st) (hstv : st.version = v)
    (hhash : ¬(st.body_hash = compute_body_hash env content))
    (hids : st.message_ids ≠ [])
    (hfail : ∀ n, (env.editResult n).success = false) :
    (checker_main env false none fs).exitCode = 1 ∧
    (checker_main env false none fs).fs.messageState = none ∧
    (checker_main env false none fs).fs.versionFile = fs.versionFile ∧
    checker_main env false none ((checker_main env false none fs).fs) =
      ⟨0, clear_message_state fs, []⟩ := by
  rcases htr : translate_changelog env content [] with ⟨translated, tr1⟩
  have hef := edit_bilingual_fail env st.message_ids v content translated "Claude Code" "" tr1 hfail
  rcases hee : edit_bilingual_notification env st.message_ids v content translated
    "Claude Code" "" tr1 with ⟨er, tr2⟩
  have hef2 : er.success = false := by rw [hee] at hef; exact hef
  have hrun1 : checker_main env false none fs = ⟨1, clear_message_state fs, tr2⟩ := by
    simp [checker_main, hfetch, hne, hparse, hvf, hsv, hms, hstv, hhash, hids,
      read_saved_version, read_message_state, htr, hee, hef2, bne_iff_ne]
  have hrun2 : checker_main env false none (clear_message_state fs) =
      ⟨0, clear_message_state fs, []⟩ := by
    simp [checker_main, hfetch, hne, hparse, clear_message_state, hvf, hsv,
      read_saved_version, read_message_state]
  rw [hrun1]
  exact ⟨rfl, rfl, rfl, hrun2⟩

set_option maxRecDepth 100000 in
/-- Witness for the amended C5: concrete failing edits; the first run clears
the state and exits 1, the second run is silent. -/
theorem C5_edit_failure_clears_state_witness :
    (∀ n, (editFailEnv.editResult n).success = false) ∧
    ((checker_main editFailEnv false none fsTracked).exitCode = 1 ∧
      (checker_main editFailEnv false none fsTracked).fs.messageState = none ∧
      (checker_main editFailEnv false none fsTracked).fs.versionFile = fsTracked.versionFile ∧
      checker_main editFailEnv false none ((checker_main editFailEnv false none fsTracked).fs) =
        ⟨0, clear_message_state fsTracked, []⟩) :=
  ⟨fun _ => rfl,
    C5_edit_failure_clears_state editFailEnv fsTracked "## 1.0.0\n\n- Old entry" "1.0.0"
      "## 1.0.0\n\n- Old entry" "1.0.0" ⟨"1.0.0", [9], "stale"⟩
      rfl (by decide) (by decide) rfl (by decide) rfl rfl (by decide) (by decide)
      (fun _ => rfl)⟩

set_option maxRecDepth 100000 in
/-- C5 (counterexample to the claim as stated): after the run whose edit
fails, the message-state file is indeed removed, but the next run does not
treat the version as unseen and does not notify again: it performs no send
and no edit, exits 0, and the version file still records the version. -/
theorem C5_counterexample :
    (checker_main editFailEnv false none fsTracked).fs.messageState = none ∧
    (checker_main editFailEnv false none fsTracked).exitCode = 1 ∧
    checker_main editFailEnv false none ((checker_main editFailEnv false none fsTracked).fs) =
      ⟨0, { versionFile := some "1.0.0", messageState := none }, []⟩ :=
  ⟨by decide, by decide, by decide⟩

/-! ## Claim C8: state after a failed send -/

/-- When every Telegram send fails, `send_bilingual_notification` reports
failure, whatever branch it takes. -/
theorem send_bilingual_fail (env : Env)
    (version original translated title versionUrl : String) (tr : Trace)
    (h : ∀ n, (env.sendResult n).success = false) :
    (send_bilingual_notification env version original translated title versionUrl tr).1.success =
      false := by
  rw [send_bilingual_notification]
  cases hso : (build_bilingual_messages version original translated title versionUrl).is_single_oversized with
  | false =>
    cases hov : (build_bilingual_messages version original translated title versionUrl).is_oversized with
    | false => simp [hso, hov, send_telegram_message, h]
    | true => simp [hso, hov, send_telegram_message, h]
  | true =>
    rcases hpub : publish_changelog env title original translated version tr with ⟨pr, tr1⟩
    cases hps : pr.success with
    | false => simp [hso, hpub, hps]
    | true => simp [hso, hpub, hps, send_telegram_message, h]

/-- C8 (amended): in the new-version path, when the send fails the run exits
non-zero and the message-state file is unchanged; the version file, however,
is written before the send and already records the new version. -/
theorem C8_send_failure_state (env : Env) (fs : FS) (text v content vf : String)
    (hfetch : env.fetchedChangelog = some text) (hne : ¬(text = ""))
    (hparse : parse_latest_version text = some (v, content))
    (hvf : fs.versionFile = some vf) (hsv : ¬(pyStrip vf = v))
    (hfail : ∀ n, (env.sendResult n).success = false) :
    (checker_main env false none fs).exitCode = 1 ∧
    (checker_main env false none fs).fs.versionFile = some v ∧
    (checker_main env false none fs).fs.messageState = fs.messageState := by
  rcases htr : translate_changelog env content [] with ⟨translated, tr1⟩
  have hsf := send_bilingual_fail env v content translated "Claude Code" "" tr1 hfail
  rcases hsn : send_bilingual_notification env v content translated "Claude Code" "" tr1
    with ⟨nr, tr2⟩
  have hsf2 : nr.success = false := by rw [hsn] at hsf; exact hsf
  have hrun : checker_main env false none fs = ⟨1, save_version v fs, tr2⟩ := by
    simp [checker_main, hfetch, hne, hparse, hvf, hsv, read_saved_version, htr, hsn, hsf2]
  rw [hrun]
  exact ⟨rfl, rfl, rfl⟩

set_option maxRecDepth 100000 in
/-- Witness for the amended C8: concrete failing sends on a new version. -/
theorem C8_send_failure_state_witness :
    (∀ n, (sendFailEnv.sendResult n).success = false) ∧
    ¬(pyStrip "1.0.0" = "1.0.1") ∧
    ((checker_main sendFailEnv false none fsOld).exitCode = 1 ∧
      (checker_main sendFailEnv false none fsOld).fs.versionFile = some "1.0.1" ∧
      (checker_main sendFailEnv false none fsOld).fs.messageState = fsOld.messageState) :=
  ⟨fun _ => rfl, by decide,
    C8_send_failure_state sendFailEnv fsOld "## 1.0.1\n\n- New entry" "1.0.1"
      "## 1.0.1\n\n- New entry" "1.0.0"
      rfl (by decide) (by decide) rfl (by decide) (fun _ => rfl)⟩

set_option maxRecDepth 100000 in
/-- C8 (counterexample to the claim as stated): a run whose send fails in
the new-version path leaves the version file changed — it already records
the new version — so the persisted state is not unchanged from before the
run (the message-state file is). -/
theorem C8_counterexample :
    (checker_main sendFailEnv false none fsOld).exitCode = 1 ∧
    (checker_main sendFailEnv false none fsOld).fs.versionFile = some "1.0.1" ∧
    ¬((checker_main sendFailEnv false none fsOld).fs.versionFile = fsOld.versionFile) ∧
    (checker_main sendFailEnv false none fsOld).fs.messageState = fsOld.messageState :=
  ⟨by decide, by decide, by decide, by decide⟩

/-! ## Claim C1: counterexample to the unamended statement

The original text opens a hyperlink `[x](` followed by 2050 dots; the
closing parenthesis arrives only in the translated text.  Rendering the
English message alone escapes every bracket and dot (4107 units), pushing
the dispatch into the Telegraph branch; rendering the combined message
completes the link, whose URL is exempt from escaping, so the combined
message is only 2057 units — within the limit, yet a Telegraph publish
still happens. -/

theorem tryLinkAt_none_of_no_close {rest : List Char} (h : ∀ c ∈ rest, c ≠ ')') :
    tryLinkAt rest = none := by
  rw [tryLinkAt, List.span_eq_take_drop]
  dsimp only
  split
  next a as r2 heq1 heq2 =>
    have hr2 : ∀ c ∈ r2, c ≠ ')' := by
      intro c hc
      apply h
      have hmem : c ∈ rest.dropWhile (fun d => d != ']') := by
        rw [heq2]; simp [hc]
      exact (List.dropWhile_sublist _).subset hmem
    have hdrop : r2.dropWhile (fun d => d != ')') = [] :=
      dropWhile_all (fun c hc => by
        simp only [bne_iff_ne, ne_eq, decide_eq_true_eq]
        exact hr2 c hc)
    rw [List.span_eq_take_drop, hdrop]
    cases r2.takeWhile (fun d => d != ')') <;> rfl
  next => rfl

theorem extractLinksAux_no_close {cs : List Char} (h : ∀ c ∈ cs, c ≠ ')') :
    ∀ fuel links, extractLinksAux fuel cs links = (cs, links) := by
  induction cs with
  | nil => intro fuel links; cases fuel <;> rfl
  | cons c cs ih =>
    intro fuel links
    cases fuel with
    | zero => rfl
    | succ f =>
      by_cases hc : c = '['
      · have htry : tryLinkAt cs = none :=
          tryLinkAt_none_of_no_close (fun d hd => h d (by simp [hd]))
        simp [extractLinksAux, hc, htry, ih (fun d hd => h d (by simp [hd]))]
      · have hcb : (c == '[') = false := by simp [hc]
        simp [extractLinksAux, hcb, ih (fun d hd => h d (by simp [hd]))]

theorem leadsWith_self (pat : List Char) : leadsWith pat pat = true := by
  have h := leadsWith_append pat []
  rwa [List.append_nil] at h

theorem replaceAllAux_nil (fuel : Nat) (pat repl : List Char) :
    replaceAllAux fuel pat repl [] = [] := by
  cases fuel <;> rfl

theorem replaceAllL_self {pat : List Char} (repl : List Char) (h : pat ≠ []) :
    replaceAllL pat repl pat = repl := by
  cases pat with
  | nil => exact absurd rfl h
  | cons p ps =>
    show replaceAllAux (p :: ps).length (p :: ps) repl (p :: ps) = repl
    rw [show (p :: ps).length = ps.length + 1 from rfl]
    rw [replaceAllAux]
    simp only [leadsWith_self, if_true]
    rw [List.drop_length, replaceAllAux_nil]
    simp

theorem tryLinkAt_complete (txt url rest : List Char)
    (htxt : txt ≠ []) (htxtc : ∀ c ∈ txt, c ≠ ']')
    (hurl : url ≠ []) (hurlc : ∀ c ∈ url, c ≠ ')') :
    tryLinkAt (txt ++ ']' :: '(' :: (url ++ ')' :: rest)) = some (txt, url, rest) := by
  rw [tryLinkAt, List.span_eq_take_drop]
  have htb : ∀ c ∈ txt, (c != ']') = true := fun c hc => by
    simp only [bne_iff_ne, ne_eq, decide_eq_true_eq]
    exact htxtc c hc
  have hub : ∀ c ∈ url, (c != ')') = true := fun c hc => by
    simp only [bne_iff_ne, ne_eq, decide_eq_true_eq]
    exact hurlc c hc
  have htw : (txt ++ ']' :: '(' :: (url ++ ')' :: rest)).takeWhile (fun d => d != ']') = txt := by
    rw [takeWhile_append_all _ htb, List.takeWhile_cons]
    simp
  have hdw : (txt ++ ']' :: '(' :: (url ++ ')' :: rest)).dropWhile (fun d => d != ']') =
      ']' :: '(' :: (url ++ ')' :: rest) := by
    rw [dropWhile_append_all _ htb, List.dropWhile_cons]
    simp
  rw [htw, hdw]
  have htw2 : (url ++ ')' :: rest).takeWhile (fun d => d != ')') = url := by
    rw [takeWhile_append_all _ hub, List.takeWhile_cons]
    simp
  have hdw2 : (url ++ ')' :: rest).dropWhile (fun d => d != ')') = ')' :: rest := by
    rw [dropWhile_append_all _ hub, List.dropWhile_cons]
    simp
  cases txt with
  | nil => exact absurd rfl htxt
  | cons a as =>
    dsimp only
    split
    next heq1 heq2 =>
      injection heq2 with h1 heq3
      injection heq3 with h2 heq4
      subst heq4
      simp only [List.span_eq_take_drop, htw2, hdw2]
      cases url with
      | nil => exact absurd rfl hurl
      | cons u us => rfl
    next hno =>
      exact ((hno a as (url ++ ')' :: rest) rfl rfl)).elim

theorem extractLinksAux_nil (fuel : Nat) (links : List (List Char × List Char)) :
    extractLinksAux fuel [] links = ([], links) := by
  cases fuel <;> rfl

theorem extractLinksAux_whole (txt url : List Char) (links : List (List Char × List Char))
    (f : Nat)
    (htxt : txt ≠ []) (htxtc : ∀ c ∈ txt, c ≠ ']')
    (hurl : url ≠ []) (hurlc : ∀ c ∈ url, c ≠ ')') :
    extractLinksAux (f + 1) ('[' :: (txt ++ ']' :: '(' :: (url ++ [')']))) links =
      (linkMark links.length, links ++ [(txt, url)]) := by
  have htry : tryLinkAt (txt ++ ']' :: '(' :: (url ++ [')'])) = some (txt, url, []) := by
    have h := tryLinkAt_complete txt url [] htxt htxtc hurl hurlc
    simpa using h
  rw [extractLinksAux]
  simp only [htry]
  rw [extractLinksAux_nil]
  simp

theorem c1orig_data : c1orig.data = ['[', 'x', ']', '('] ++ List.replicate 2050 '.' := rfl

theorem c1orig_mem (P : Char → Prop) (h1 : P '[') (h2 : P 'x') (h3 : P ']') (h4 : P '(')
    (h5 : P '.') : ∀ c ∈ c1orig.data, P c := by
  rw [c1orig_data]
  intro c hc
  rcases List.mem_append.mp hc with h | h
  · simp only [List.mem_cons, List.not_mem_nil, or_false] at h
    rcases h with rfl | rfl | rfl | rfl <;> assumption
  · exact (List.eq_of_mem_replicate h) ▸ h5

theorem c1_en_process_length :
    (process_message_for_markdown_v2 c1orig).length = 4107 := by
  have hnc : ∀ c ∈ c1orig.data, c ≠ ')' :=
    c1orig_mem (fun d => d ≠ ')') (by decide) (by decide) (by decide) (by decide) (by decide)
  have hC : ∀ c ∈ c1orig.data, c ≠ '`' :=
    c1orig_mem (fun d => d ≠ '`') (by decide) (by decide) (by decide) (by decide) (by decide)
  have hS : ∀ c ∈ c1orig.data, c ≠ '*' :=
    c1orig_mem (fun d => d ≠ '*') (by decide) (by decide) (by decide) (by decide) (by decide)
  rw [process_message_for_markdown_v2]
  simp only [extractLinksAux_no_close hnc]
  simp only [extractCodesAux_id hC]
  simp only [processBoldAux_no_star hS]
  show (escapeMarkdownL c1orig.data).length = 4107
  rw [c1orig_data, escapeMarkdownL_append, List.length_append, escapeMarkdownL_length_replicate]
  rw [show (escapeMarkdownL ['[', 'x', ']', '(']).length = 7 from by decide,
    show (escapeCharL '.').length = 2 from by decide]

theorem c1_combined_process_length :
    (process_message_for_markdown_v2 ⟨c1orig.data ++ '\n' :: '\n' :: c1trans.data⟩).length =
      2057 := by
  have hurlne : List.replicate 2050 '.' ++ ['\n', '\n'] ≠ ([] : List Char) :=
    fun h => absurd (List.append_eq_nil.mp h).2 (by decide)
  have hurlc : ∀ c ∈ List.replicate 2050 '.' ++ ['\n', '\n'], c ≠ ')' := by
    intro c hc
    rcases List.mem_append.mp hc with h | h
    · exact (List.eq_of_mem_replicate h) ▸ (by decide)
    · simp only [List.mem_cons, List.not_mem_nil, or_false] at h
      rcases h with rfl | rfl <;> decide
  have hshape : c1orig.data ++ '\n' :: '\n' :: c1trans.data =
      '[' :: (['x'] ++ ']' :: '(' :: ((List.replicate 2050 '.' ++ ['\n', '\n']) ++ [')'])) := by
    rw [c1orig_data, show c1trans.data = [')'] from rfl]
    simp only [List.append_assoc, List.cons_append, List.nil_append]
  have hlmC : ∀ c ∈ linkMark 0, c ≠ '`' := by decide
  have hlmS : ∀ c ∈ linkMark 0, c ≠ '*' := by decide
  have hlmE : ∀ c ∈ linkMark 0, c ∉ escapeChars := by decide
  rw [process_message_for_markdown_v2]
  rw [hshape]
  rw [List.length_cons]
  rw [extractLinksAux_whole ['x'] (List.replicate 2050 '.' ++ ['\n', '\n']) [] _
    (by decide) (by decide) hurlne hurlc]
  simp only [List.length_nil]
  simp only [extractCodesAux_id hlmC]
  simp only [processBoldAux_no_star hlmS]
  rw [escapeMarkdownL_id hlmE]
  simp only [restoreLinksAux]
  rw [escapeMarkdownL_id hlmE]
  rw [show escapeMarkdownL ['x'] = ['x'] from by decide]
  rw [replaceAllL_self _ (by decide)]
  show ('[' :: (['x'] ++ ']' :: '(' ::
    ((List.replicate 2050 '.' ++ ['\n', '\n']) ++ [')']))).length = 2057
  simp only [List.length_cons, List.length_append, List.length_replicate, List.length_nil]

theorem c1_fields :
    (build_bilingual_messages "1" c1orig c1trans "" "").en_message = c1orig ∧
    (build_bilingual_messages "1" c1orig c1trans "" "").cn_message = c1trans ∧
    (build_bilingual_messages "1" c1orig c1trans "" "").combined_message =
      ⟨c1orig.data ++ '\n' :: '\n' :: c1trans.data⟩ :=
  build_no_title_fields "1" c1orig c1trans (by decide)
    (clean_for_telegram_id c1orig
      (c1orig_mem (fun d => d ≠ '#')
        (by decide) (by decide) (by decide) (by decide) (by decide))
      (c1orig_mem (fun d => pyIsDigitB d = false)
        (by decide) (by decide) (by decide) (by decide) (by decide))
      (c1orig_mem (fun d => d ≠ '-')
        (by decide) (by decide) (by decide) (by decide) (by decide))
      (c1orig_mem (fun d => d ≠ '\n')
        (by decide) (by decide) (by decide) (by decide) (by decide))
      (c1orig_mem (fun d => pyIsSpaceB d = false)
        (by decide) (by decide) (by decide) (by decide) (by decide)))
    (by decide)
    (by
      rw [show ("链接:".data) = '链' :: '接' :: ':' :: ([] : List Char) from rfl]
      exact replaceAllL_absent _
        (c1orig_mem (fun d => d ≠ '链')
          (by decide) (by decide) (by decide) (by decide) (by decide)))

theorem c1_en_length :
    (build_bilingual_messages "1" c1orig c1trans "" "").en_length = 4107 := by
  rw [build_en_length_eq, c1_fields.1, c1_en_process_length]

theorem c1_cn_length :
    (build_bilingual_messages "1" c1orig c1trans "" "").cn_length = 2 := by
  rw [build_cn_length_eq, c1_fields.2.1]
  decide

theorem c1_combined_length :
    (build_bilingual_messages "1" c1orig c1trans "" "").combined_length = 2057 := by
  rw [build_combined_length_eq, c1_fields.2.2, c1_combined_process_length]

/-- C1 as stated is false: on the release note `c1orig` (a hyperlink opened
in the original and closed in the translation) the escaped combined message
fits in the 4096-unit limit, yet the run performs a Telegraph publish —
`send_bilingual_notification` tests the single-language overflow first, and
the English message alone escapes to 4107 units. -/
theorem C1_counterexample :
    (build_bilingual_messages "1" c1orig c1trans "" "").combined_length ≤ MAX_MESSAGE_LENGTH ∧
    countPages (send_bilingual_notification allOkEnv "1" c1orig c1trans "" "" []).2 = 1 := by
  constructor
  · rw [c1_combined_length]
    decide
  · have hso : (build_bilingual_messages "1" c1orig c1trans "" "").is_single_oversized =
        true := by
      rw [build_is_single_oversized_eq, c1_en_length, c1_cn_length]
      decide
    have hok : (allOkEnv.pageResult (countPages ([] : Trace))).success = true := rfl
    have hpub := (publish_changelog_cases allOkEnv "" c1orig c1trans "1" []).1 (Or.inl hok)
    rw [send_bilingual_telegraph_success allOkEnv "1" c1orig c1trans "" "" []
      (allOkEnv.pageResult (countPages ([] : Trace)))
      ([] ++ [Event.page (page_title_of "" "1") (build_html c1orig c1trans)]) hso hpub hok]
    simp [countPages]

end RelTracker
